import Mathlib

/-! Verification of the reconciliation/diffing engine of the web-map-inventory
repository (`map_layer_index/__init__.py`): the classification pass
(`Airtable.stat`), the corrective operations (`Airtable.load` / `sync` /
`reset` / `status`), and the per-kind Airtable record adapters
(`ServerAirtable`, `NamespaceAirtable`, `RepositoryAirtable`,
`StyleAirtable`, `LayerAirtable`).

Local identifiers are modelled as strings, Airtable record identifiers as
naturals.  Python dictionaries are modelled as insertion-ordered association
lists (`dGet` / `dSet`).  Python exceptions are modelled with `Except`
over `PyErr`; remote-table mutations that can raise mid-way return the
table state reached at the moment of the exception in the error value. -/

namespace MapLayerIndex

/-- Python exception kinds raised by the translated code.  `Airtable.stat`
catches only `KeyError` (line 862); anything else aborts the pass. -/
inductive PyErr where
  | keyError
  | valueError
  | runtimeError
  | attributeError
  | indexError
deriving DecidableEq, Repr

/-- Python `dict` lookup `d[k]` over an insertion-ordered association list
(`none` models a `KeyError` at the call site). -/
def dGet {κ ν : Type} [DecidableEq κ] : List (κ × ν) → κ → Option ν
  | [], _ => none
  | (k', v) :: rest, k => if k' = k then some v else dGet rest k

/-- Python `dict` assignment `d[k] = v`: replaces the value in place when the
key is already present (keeping its position), otherwise appends the pair. -/
def dSet {κ ν : Type} [DecidableEq κ] : List (κ × ν) → κ → ν → List (κ × ν)
  | [], k, v => [(k, v)]
  | (k', v') :: rest, k, v =>
    if k' = k then (k, v) :: rest else (k', v') :: dSet rest k v

/-- Keys of a modelled Python `dict`, in insertion order. -/
def dKeys {κ ν : Type} (l : List (κ × ν)) : List κ := l.map Prod.fst

/-- Modelled from the spec: a raw record of the remote table (spec section 6).
It carries the envelope identifier assigned by the remote table and a
kind-specific `fields` mapping `F`.  (The Airtable client itself is the
external `airtable` package, not repository code.) -/
structure AirtableRecord (F : Type) where
  id : Nat
  fields : F
deriving DecidableEq, Repr

/-- Modelled from the spec: the remote-table client state (spec section 6).
The core uses exactly `get_all`, `batch_insert`, `update` and `batch_delete`.
`nextId` supplies fresh identifiers for created records. -/
structure RemoteTable (F : Type) where
  records : List (AirtableRecord F)
  nextId : Nat
deriving DecidableEq, Repr

/-- Modelled from the spec: `batch_insert(records=...)` creates one remote
record per submitted field mapping, assigning fresh identifiers. -/
def batch_insert {F : Type} (t : RemoteTable F) (fs : List F) : RemoteTable F :=
  { records := t.records ++ fs.enum.map (fun p => ⟨t.nextId + p.1, p.2⟩),
    nextId := t.nextId + fs.length }

/-- Modelled from the spec: `update(record_id=..., fields=...)` replaces the
field mapping of the record with the given identifier. -/
def rupdate {F : Type} (t : RemoteTable F) (rid : Nat) (f : F) : RemoteTable F :=
  { t with records :=
      t.records.map (fun r => if r.id = rid then { r with fields := f } else r) }

/-- Modelled from the spec: `batch_delete(record_ids=...)` removes every
record whose identifier is listed. -/
def batch_delete {F : Type} (t : RemoteTable F) (rids : List Nat) : RemoteTable F :=
  { t with records := t.records.filter (fun r => !(rids.contains r.id)) }

/-- Per-entity-kind interface used by the generic `Airtable` engine: the
inbound constructor (`self.ItemClassAirtable(item=<dict>, **self.kwargs)`,
sibling bridges already applied), the declared local identifier
(`item['fields']['ID']`), the `id` / `airtable_id` attributes, structural
equality (`__eq__`, which can itself raise), and the outbound field mapping
(`airtable_fields()`, which can raise when a required relationship target
is absent). -/
structure KindApi (F α : Type) where
  declaredId : F → Option String
  parse : AirtableRecord F → Except PyErr α
  localId : α → String
  airtableId : α → Option Nat
  setAirtableId : α → Option Nat → α
  beq : α → α → Except PyErr Bool
  fields : α → Except PyErr F

/-- State of one `Airtable` engine instance (lines 825-843): the local and
remote-side collections, the local-id map of the identifier bridge, and the
four classification lists. -/
structure EngineState (α : Type) where
  items_local : List (String × α)
  items_airtable : List (String × α)
  airtable_ids_to_ids : List (Option Nat × String)
  missing : List String
  current : List String
  outdated : List String
  orphaned : List String
deriving DecidableEq, Repr

/-- `Airtable.get_by_id` (lines 877-878): `self.items_local[item_id]`. -/
def getById {α : Type} (s : EngineState α) (i : String) : Except PyErr α :=
  match dGet s.items_local i with
  | none => Except.error .keyError
  | some a => Except.ok a

/-- `Airtable.get_by_airtable_id` (lines 880-881):
`self.items_local[self.airtable_ids_to_ids[item_airtable_id]]`.  The key may
be Python `None`, hence `Option Nat`. -/
def getByAirtableId {α : Type} (s : EngineState α) (x : Option Nat) : Except PyErr α :=
  match dGet s.airtable_ids_to_ids x with
  | none => Except.error .keyError
  | some lid =>
    match dGet s.items_local lid with
    | none => Except.error .keyError
    | some a => Except.ok a

/-- One iteration of the record loop of `Airtable.stat` (lines 853-864).
`item_id = airtable_item['fields']['ID']` is read before the `try`, so a
record without an `ID` field aborts the whole pass.  Inside the `try`, a
`KeyError` — raised by inbound construction or by the local-collection
lookup — degrades the record to `orphaned`; any other exception escapes.
On success the record is registered in `items_airtable` first, and the
correlation (writing `airtable_id` onto the local item and recording the
bridge pair) happens only if the local lookup succeeds. -/
def statStep {F α : Type} (k : KindApi F α) (s : EngineState α)
    (r : AirtableRecord F) : Except PyErr (EngineState α) :=
  match k.declaredId r.fields with
  | none => Except.error .keyError
  | some item_id =>
    match k.parse r with
    | .error .keyError => Except.ok { s with orphaned := s.orphaned ++ [item_id] }
    | .error e => Except.error e
    | .ok item =>
      match dGet s.items_local (k.localId item) with
      | none => Except.ok { s with
          items_airtable := dSet s.items_airtable (k.localId item) item,
          orphaned := s.orphaned ++ [item_id] }
      | some litem =>
        Except.ok { s with
          items_airtable := dSet s.items_airtable (k.localId item) item,
          items_local := dSet s.items_local (k.localId item)
            (k.setAirtableId litem (k.airtableId item)),
          airtable_ids_to_ids :=
            dSet s.airtable_ids_to_ids (k.airtableId item) (k.localId item) }

/-- One iteration of the classification loop of `Airtable.stat` (lines
866-875): a local item without a remote counterpart is `missing` (the
`KeyError` of the lookup is caught); otherwise structural equality decides
between `current` and `outdated`.  An exception raised by the comparison
itself is not a `KeyError` and escapes. -/
def classifyStep {F α : Type} (k : KindApi F α) (s : EngineState α) (item : α) :
    Except PyErr (EngineState α) :=
  match dGet s.items_airtable (k.localId item) with
  | none => Except.ok { s with missing := s.missing ++ [k.localId item] }
  | some ritem =>
    match k.beq item ritem with
    | .error e => Except.error e
    | .ok b =>
      if b then Except.ok { s with current := s.current ++ [k.localId item] }
      else Except.ok { s with outdated := s.outdated ++ [k.localId item] }

/-- `Airtable.stat` (lines 845-875): clear the remote-side collection and the
four classification lists (the identifier-bridge map is left as it is), scan
every fetched record, then classify every local item.  `records` is the
result of `self.airtable.get_all()`. -/
def stat {F α : Type} (k : KindApi F α) (s : EngineState α)
    (records : List (AirtableRecord F)) : Except PyErr (EngineState α) := do
  let s1 ← records.foldlM (statStep k)
    { s with items_airtable := [], missing := [], current := [],
             outdated := [], orphaned := [] }
  (s1.items_local.map Prod.snd).foldlM (classifyStep k) s1

/-- One iteration of the list-building loop of `Airtable.load` (lines
886-888): `self.items_local[missing_id].airtable_fields()` is appended; a
raised exception propagates before `batch_insert` runs, so the error
carries the untouched table `t`. -/
def loadStep {F α : Type} (k : KindApi F α) (s : EngineState α) (t : RemoteTable F)
    (acc : List F) (mid : String) : Except (PyErr × RemoteTable F) (List F) :=
  match dGet s.items_local mid with
  | none => throw (PyErr.keyError, t)
  | some item =>
    match k.fields item with
    | .error e => throw (e, t)
    | .ok f => pure (acc ++ [f])

/-- `Airtable.load` (lines 883-889): collect the outbound field mappings of
every `missing` item, then batch-insert them. -/
def load {F α : Type} (k : KindApi F α) (s : EngineState α) (t : RemoteTable F) :
    Except (PyErr × RemoteTable F) (RemoteTable F) := do
  let fs ← s.missing.foldlM (loadStep k s t) ([] : List F)
  pure (batch_insert t fs)

/-- One iteration of the update loop of `Airtable.sync` (lines 896-898):
update the record keyed by the correlated `airtable_id` with the refreshed
outbound field mapping.  A `None` record identifier handed to the client is
modelled as a fatal client-side error.  The error carries the table as
mutated so far. -/
def updStep {F α : Type} (k : KindApi F α) (s : EngineState α)
    (acc : RemoteTable F) (oid : String) : Except (PyErr × RemoteTable F) (RemoteTable F) :=
  match dGet s.items_local oid with
  | none => throw (PyErr.keyError, acc)
  | some item =>
    match k.fields item with
    | .error e => throw (e, acc)
    | .ok f =>
      match k.airtableId item with
      | none => throw (PyErr.runtimeError, acc)
      | some rid => pure (rupdate acc rid f)

/-- One iteration of the deletion-list loop of `Airtable.sync` (lines
900-902): `self.items_airtable[orphaned_id].airtable_id` is appended; the
`KeyError` of an unregistered orphan escapes `sync()`, with the table state
`t2` (inserts and updates already submitted persist). -/
def delStep {F α : Type} (k : KindApi F α) (s : EngineState α) (t2 : RemoteTable F)
    (acc : List Nat) (oid : String) : Except (PyErr × RemoteTable F) (List Nat) :=
  match dGet s.items_airtable oid with
  | none => throw (PyErr.keyError, t2)
  | some item =>
    match k.airtableId item with
    | none => throw (PyErr.runtimeError, t2)
    | some rid => pure (acc ++ [rid])

/-- `Airtable.sync` (lines 891-903): `load()`, then update every `outdated`
item, then batch-delete the remote records registered under the `orphaned`
identifiers. -/
def sync {F α : Type} (k : KindApi F α) (s : EngineState α) (t : RemoteTable F) :
    Except (PyErr × RemoteTable F) (RemoteTable F) := do
  let t1 ← load k s t
  let t2 ← s.outdated.foldlM (updStep k s) t1
  let ids ← s.orphaned.foldlM (delStep k s t2) ([] : List Nat)
  pure (batch_delete t2 ids)

/-- One iteration of the deletion-list loop of `Airtable.reset` (lines
908-910). -/
def resetStep {F α : Type} (k : KindApi F α) (t : RemoteTable F)
    (acc : List Nat) (item : α) : Except (PyErr × RemoteTable F) (List Nat) :=
  match k.airtableId item with
  | none => throw (PyErr.runtimeError, t)
  | some rid => pure (acc ++ [rid])

/-- `Airtable.reset` (lines 905-911): batch-delete every remote record in the
remote-side collection as registered by the most recent `stat()`. -/
def reset {F α : Type} (k : KindApi F α) (s : EngineState α) (t : RemoteTable F) :
    Except (PyErr × RemoteTable F) (RemoteTable F) := do
  let ids ← (s.items_airtable.map Prod.snd).foldlM (resetStep k t) ([] : List Nat)
  pure (batch_delete t ids)

/-- Return value of `Airtable.status` (lines 916-921). -/
structure Status where
  current : List String
  outdated : List String
  missing : List String
  orphaned : List String
deriving DecidableEq, Repr

/-- `Airtable.status` (lines 913-921): re-run `stat()` against the current
table contents, then return the four classification lists. -/
def status {F α : Type} (k : KindApi F α) (s : EngineState α) (t : RemoteTable F) :
    Except PyErr (EngineState α × Status) := do
  let s1 ← stat k s t.records
  pure (s1, ⟨s1.current, s1.outdated, s1.missing, s1.orphaned⟩)

/-- Read of a required record field: a missing key raises `KeyError`. -/
def reqField {β : Type} : Option β → Except PyErr β
  | none => Except.error .keyError
  | some v => Except.ok v

/-- Coercion of a raw value through an `Enum`-by-value lookup: a value
outside the vocabulary raises `ValueError`. -/
def coerceEnum {β : Type} : Option β → Except PyErr β
  | none => Except.error .valueError
  | some v => Except.ok v

/-- First fetched record declaring the given local identifier in its `ID`
field (specification helper for the characterization theorems). -/
def findDecl {F α : Type} (k : KindApi F α) (rs : List (AirtableRecord F))
    (i : String) : Option (AirtableRecord F) :=
  rs.find? (fun r => k.declaredId r.fields == some i)

/-- Specification helper: the structural comparison returned `True`. -/
def beqTrue {F α : Type} (k : KindApi F α) (a b : α) : Bool :=
  match k.beq a b with
  | .ok true => true
  | _ => false

/-- Specification helper: the structural comparison returned `False`. -/
def beqFalse {F α : Type} (k : KindApi F α) (a b : α) : Bool :=
  match k.beq a b with
  | .ok false => true
  | _ => false

/-- Specification helper: the local collection after one `stat()` record
scan — every local item whose identifier is declared by some fetched record
has that record's identifier copied onto its `airtable_id`. -/
def corrItems {F α : Type} (k : KindApi F α) (rs : List (AirtableRecord F))
    (ll : List (String × α)) : List (String × α) :=
  ll.map (fun p =>
    match findDecl k rs p.1 with
    | some r => (p.1, k.setAirtableId p.2 (some r.id))
    | none => p)

/-! Entity enumerations (lines 29-92) and their Airtable display
vocabularies (lines 924-988).  `value` is the Python `Enum` member value,
`ofValue` the `Enum(value)` by-value lookup (`none` models the `ValueError`
for an unknown value), `ofName` the `Enum[name]` by-name lookup used by the
outbound constructors (total, since the two vocabularies share their member
names). -/

/-- `ServerType` (line 29). -/
inductive ServerType where
  | geoserver
deriving DecidableEq, Repr

/-- `RepositoryType` (line 36). -/
inductive RepositoryType where
  | postgis | geotiff | ecw | jpeg2000 | imagemosaic | worldimage
deriving DecidableEq, Repr

/-- `StyleType` (line 48). -/
inductive StyleType where
  | sld
deriving DecidableEq, Repr

/-- `LayerType` (line 55). -/
inductive LayerType where
  | raster | vector
deriving DecidableEq, Repr

/-- `LayerGeometry` (line 63). -/
inductive LayerGeometry where
  | point | linestring | polygon | multipoint | multilinestring | multipolygon
deriving DecidableEq, Repr

/-- `LayerService` (line 75). -/
inductive LayerService where
  | wms | wmts | wcs | wfs
deriving DecidableEq, Repr

/-- `ServerTypeAirtable` (line 924). -/
inductive ServerTypeAirtable where
  | geoserver
deriving DecidableEq, Repr

/-- Member values of `ServerTypeAirtable`. -/
def ServerTypeAirtable.value : ServerTypeAirtable → String
  | .geoserver => "GeoServer"

/-- `ServerTypeAirtable(value)` by-value lookup. -/
def ServerTypeAirtable.ofValue : String → Option ServerTypeAirtable
  | "GeoServer" => some .geoserver
  | _ => none

/-- `ServerTypeAirtable[name]` by-name lookup from `ServerType`. -/
def ServerTypeAirtable.ofName : ServerType → ServerTypeAirtable
  | .geoserver => .geoserver

/-- `RepositoryTypeAirtable` (line 931). -/
inductive RepositoryTypeAirtable where
  | postgis | geotiff | ecw | jpeg2000 | imagemosaic | worldimage
deriving DecidableEq, Repr

/-- Member values of `RepositoryTypeAirtable`. -/
def RepositoryTypeAirtable.value : RepositoryTypeAirtable → String
  | .postgis => "PostGIS"
  | .geotiff => "GeoTiff"
  | .ecw => "ECW"
  | .jpeg2000 => "JPEG2000"
  | .imagemosaic => "Image Mosaic"
  | .worldimage => "World Image"

/-- `RepositoryTypeAirtable[name]` by-name lookup from `RepositoryType`. -/
def RepositoryTypeAirtable.ofName : RepositoryType → RepositoryTypeAirtable
  | .postgis => .postgis
  | .geotiff => .geotiff
  | .ecw => .ecw
  | .jpeg2000 => .jpeg2000
  | .imagemosaic => .imagemosaic
  | .worldimage => .worldimage

/-- `StyleTypeAirtable` (line 944). -/
inductive StyleTypeAirtable where
  | sld
deriving DecidableEq, Repr

/-- Member values of `StyleTypeAirtable`. -/
def StyleTypeAirtable.value : StyleTypeAirtable → String
  | .sld => "SLD"

/-- `LayerTypeAirtable` (line 951). -/
inductive LayerTypeAirtable where
  | raster | vector
deriving DecidableEq, Repr

/-- Member values of `LayerTypeAirtable`. -/
def LayerTypeAirtable.value : LayerTypeAirtable → String
  | .raster => "Raster"
  | .vector => "Vector"

/-- `LayerTypeAirtable(value)` by-value lookup. -/
def LayerTypeAirtable.ofValue : String → Option LayerTypeAirtable
  | "Raster" => some .raster
  | "Vector" => some .vector
  | _ => none

/-- `LayerTypeAirtable[name]` by-name lookup from `LayerType`. -/
def LayerTypeAirtable.ofName : LayerType → LayerTypeAirtable
  | .raster => .raster
  | .vector => .vector

/-- `LayerGeometryAirtable` (line 959). -/
inductive LayerGeometryAirtable where
  | point | linestring | polygon | multipoint | multilinestring | multipolygon
deriving DecidableEq, Repr

/-- Member values of `LayerGeometryAirtable`. -/
def LayerGeometryAirtable.value : LayerGeometryAirtable → String
  | .point => "Point"
  | .linestring => "Linestring"
  | .polygon => "Polygon"
  | .multipoint => "Multi-Point"
  | .multilinestring => "Multi-Linestring"
  | .multipolygon => "Multi-Polygon"

/-- `LayerGeometryAirtable(value)` by-value lookup.  The argument is the raw
field value, which may be Python `None` (also a `ValueError`). -/
def LayerGeometryAirtable.ofValue : Option String → Option LayerGeometryAirtable
  | some "Point" => some .point
  | some "Linestring" => some .linestring
  | some "Polygon" => some .polygon
  | some "Multi-Point" => some .multipoint
  | some "Multi-Linestring" => some .multilinestring
  | some "Multi-Polygon" => some .multipolygon
  | _ => none

/-- `LayerGeometryAirtable[name]` by-name lookup from `LayerGeometry`. -/
def LayerGeometryAirtable.ofName : LayerGeometry → LayerGeometryAirtable
  | .point => .point
  | .linestring => .linestring
  | .polygon => .polygon
  | .multipoint => .multipoint
  | .multilinestring => .multilinestring
  | .multipolygon => .multipolygon

/-- `LayerServiceAirtable` (line 971). -/
inductive LayerServiceAirtable where
  | wms | wmts | wcs | wfs
deriving DecidableEq, Repr

/-- Member values of `LayerServiceAirtable`. -/
def LayerServiceAirtable.value : LayerServiceAirtable → String
  | .wms => "WMS"
  | .wmts => "WMTS"
  | .wcs => "WCS"
  | .wfs => "WFS"

/-- `LayerServiceAirtable(value)` by-value lookup. -/
def LayerServiceAirtable.ofValue : String → Option LayerServiceAirtable
  | "WMS" => some .wms
  | "WMTS" => some .wmts
  | "WCS" => some .wcs
  | "WFS" => some .wfs
  | _ => none

/-- `LayerServiceAirtable[name]` by-name lookup from `LayerService`. -/
def LayerServiceAirtable.ofName : LayerService → LayerServiceAirtable
  | .wms => .wms
  | .wmts => .wmts
  | .wcs => .wcs
  | .wfs => .wfs

/-! Local entities (lines 95-463).  Relationship fields hold references to
the related entity objects, `none` when unset; the outbound adapter
constructors read only the related entity's `id`. -/

/-- `Server` (lines 95-131). -/
structure Server where
  id : String
  label : String
  hostname : String
  type : ServerType
  version : String
deriving DecidableEq, Repr

/-- `Namespace` (lines 134-191); `nsUri` models the `namespace` attribute
(a keyword here) and `servers` is `relationships['servers']`. -/
structure Namespace where
  id : String
  label : String
  title : String
  nsUri : String
  isolated : Bool
  servers : Option Server
deriving DecidableEq, Repr

/-- `Repository` (lines 194-248); `namespaces` is
`relationships['namespaces']`. -/
structure Repository where
  id : String
  label : String
  title : String
  type : RepositoryType
  hostname : Option String
  database : Option String
  schema : Option String
  namespaces : Option Namespace
deriving DecidableEq, Repr

/-- `Style` (lines 251-297). -/
structure Style where
  id : String
  label : String
  title : String
  type : StyleType
  namespaces : Option Namespace
deriving DecidableEq, Repr

/-- `Layer` (lines 300-386). -/
structure Layer where
  id : String
  label : String
  title : String
  type : LayerType
  geometry_type : Option LayerGeometry
  services : List LayerService
  table_view : Option String
  namespaces : Option Namespace
  repositories : Option Repository
  styles : List Style
deriving DecidableEq, Repr

/-! Airtable record adapters (lines 991-1509).  Each field structure models
the Python `fields` dict with one optional entry per column the code reads
(`none` = key absent); `TypeF` stands for the `'Type'` column and
`TableView` for `'Table/View'`.  Relationship columns hold lists of record
identifiers, whose elements may be Python `None` (an uncorrelated local
sibling's `airtable_id`). -/

/-- Fields of a Server record (`ID, Name, Hostname, Type, Version`). -/
structure ServerFields where
  ID : Option String
  Name : Option String
  Hostname : Option String
  TypeF : Option String
  Version : Option String
deriving DecidableEq, Repr

/-- `ServerAirtable` attributes (lines 991-1021). -/
structure ServerAirtable where
  airtable_id : Option Nat
  id : String
  name : String
  hostname : String
  type : ServerTypeAirtable
  version : String
deriving DecidableEq, Repr

/-- `ServerAirtable.__init__`, outbound branch (lines 1007-1012). -/
def ServerAirtable.ofServer (s : Server) : ServerAirtable :=
  { airtable_id := none, id := s.id, name := s.label, hostname := s.hostname,
    type := ServerTypeAirtable.ofName s.type, version := s.version }

/-- `ServerAirtable.__init__`, inbound branch (lines 1013-1019), reading the
fields in source order; `ServerTypeAirtable(fields['Type'])` raises
`ValueError` for an unknown display value. -/
def ServerAirtable.parse (r : AirtableRecord ServerFields) :
    Except PyErr ServerAirtable := do
  let i ← reqField r.fields.ID
  let n ← reqField r.fields.Name
  let h ← reqField r.fields.Hostname
  let tyRaw ← reqField r.fields.TypeF
  let ty ← coerceEnum (ServerTypeAirtable.ofValue tyRaw)
  let v ← reqField r.fields.Version
  pure { airtable_id := some r.id, id := i, name := n, hostname := h,
         type := ty, version := v }

/-- `ServerAirtable.airtable_fields` (lines 1023-1030). -/
def ServerAirtable.airtable_fields (a : ServerAirtable) : ServerFields :=
  { ID := some a.id, Name := some a.name, Hostname := some a.hostname,
    TypeF := some a.type.value, Version := some a.version }

/-- Content of `ServerAirtable._dict` (lines 1032-1039): every scalar
attribute; the Airtable identifier is excluded. -/
structure ServerDict where
  id : String
  name : String
  hostname : String
  type : ServerTypeAirtable
  version : String
deriving DecidableEq, Repr

/-- `ServerAirtable._dict` (lines 1032-1039). -/
def ServerAirtable.dict (a : ServerAirtable) : ServerDict :=
  ⟨a.id, a.name, a.hostname, a.type, a.version⟩

/-- `ServerAirtable.__eq__` (lines 1044-1046): `self._dict() == other._dict()`. -/
def ServerAirtable.beqE (a b : ServerAirtable) : Except PyErr Bool :=
  Except.ok (decide (a.dict = b.dict))

/-- `serverKind` packages the `ServerAirtable` adapter for the generic
engine (`ServersAirtable`, lines 1512-1520). -/
def serverKind : KindApi ServerFields ServerAirtable where
  declaredId f := f.ID
  parse := ServerAirtable.parse
  localId a := a.id
  airtableId a := a.airtable_id
  setAirtableId a x := { a with airtable_id := x }
  beq := ServerAirtable.beqE
  fields a := Except.ok a.airtable_fields

/-- Fields of a Namespace record (`ID, Name, Title, Isolated, Server`). -/
structure NamespaceFields where
  ID : Option String
  Name : Option String
  Title : Option String
  Isolated : Option Bool
  Server : Option (List (Option Nat))
deriving DecidableEq, Repr

/-- `NamespaceAirtable` attributes (lines 1049-1087). -/
structure NamespaceAirtable where
  airtable_id : Option Nat
  id : String
  name : String
  title : String
  isolated : Bool
  server : Option ServerAirtable
deriving DecidableEq, Repr

/-- `NamespaceAirtable.__init__`, inbound branch (lines 1069-1085):
`isolated` defaults to `False` and becomes `True` only when the `Isolated`
field is present and `True`; a `Server` reference is resolved through the
sibling `ServersAirtable` bridge (always supplied by `NamespacesAirtable`,
line 1537, so the `RuntimeError` guard of line 1081 cannot fire), and a
dangling reference re-raises `KeyError` (line 1085).  An empty reference
list makes `fields['Server'][0]` raise `IndexError`, which is not caught. -/
def NamespaceAirtable.parse (servers : EngineState ServerAirtable)
    (r : AirtableRecord NamespaceFields) : Except PyErr NamespaceAirtable := do
  let i ← reqField r.fields.ID
  let n ← reqField r.fields.Name
  let ti ← reqField r.fields.Title
  let iso := decide (r.fields.Isolated = some true)
  let server ← match r.fields.Server with
    | none => pure (none : Option ServerAirtable)
    | some [] => throw PyErr.indexError
    | some (x :: _) =>
      match getByAirtableId servers x with
      | .error _ => throw PyErr.keyError
      | .ok sv => pure (some sv)
  pure { airtable_id := some r.id, id := i, name := n, title := ti,
         isolated := iso, server := server }

/-- `NamespaceAirtable.airtable_fields` (lines 1089-1096):
`'Server': [self.server.airtable_id]` raises `AttributeError` when no
server is set. -/
def NamespaceAirtable.airtable_fields (a : NamespaceAirtable) :
    Except PyErr NamespaceFields :=
  match a.server with
  | none => Except.error .attributeError
  | some sv => Except.ok
      { ID := some a.id, Name := some a.name, Title := some a.title,
        Isolated := some a.isolated, Server := some [sv.airtable_id] }

/-- `NamespaceAirtable.__eq__` via `_dict` (lines 1098-1112): the scalar
entries are compared first (in insertion order, short-circuiting on the
first difference), and the `'server'` entry holds the related
`ServerAirtable` object itself, compared by the server's own `__eq__`
(which ignores the server's `airtable_id`).  Comparing a present server
with an absent one calls `None._dict()` and raises `AttributeError`. -/
def NamespaceAirtable.beqE (a b : NamespaceAirtable) : Except PyErr Bool :=
  if a.id ≠ b.id then Except.ok false
  else if a.name ≠ b.name then Except.ok false
  else if a.title ≠ b.title then Except.ok false
  else if a.isolated ≠ b.isolated then Except.ok false
  else match a.server, b.server with
    | none, none => Except.ok true
    | some x, some y => Except.ok (decide (x.dict = y.dict))
    | _, _ => Except.error .attributeError

/-- `namespaceKind` packages the `NamespaceAirtable` adapter with its
sibling `ServersAirtable` bridge (`NamespacesAirtable`, lines 1523-1538). -/
def namespaceKind (servers : EngineState ServerAirtable) :
    KindApi NamespaceFields NamespaceAirtable where
  declaredId f := f.ID
  parse := NamespaceAirtable.parse servers
  localId a := a.id
  airtableId a := a.airtable_id
  setAirtableId a x := { a with airtable_id := x }
  beq := NamespaceAirtable.beqE
  fields := NamespaceAirtable.airtable_fields

/-- Fields of a Repository record
(`ID, Name, Title, Type, Host, Database, Schema, Workspace`). -/
structure RepositoryFields where
  ID : Option String
  Name : Option String
  Title : Option String
  TypeF : Option String
  Host : Option String
  Database : Option String
  Schema : Option String
  Workspace : Option (List (Option Nat))
deriving DecidableEq, Repr

/-- `RepositoryAirtable` attributes (lines 1115-1164). -/
structure RepositoryAirtable where
  airtable_id : Option Nat
  id : String
  name : String
  title : String
  type : RepositoryTypeAirtable
  host : Option String
  database : Option String
  schema : Option String
  workspace : Option NamespaceAirtable
deriving DecidableEq, Repr

/-- `RepositoryAirtable.__eq__` via `_dict` (lines 1178-1195): `_dict`
evaluates `[self.workspace.airtable_id]` unconditionally, so either side
without a workspace raises `AttributeError` (`self` first); otherwise the
dictionaries — scalars (`type` by display value) plus the one-element
workspace remote-identifier lists — are compared. -/
def RepositoryAirtable.beqE (a b : RepositoryAirtable) : Except PyErr Bool :=
  match a.workspace with
  | none => Except.error .attributeError
  | some x =>
    match b.workspace with
    | none => Except.error .attributeError
    | some y => Except.ok
        (decide (a.id = b.id) && decide (a.name = b.name) &&
         decide (a.title = b.title) && decide (a.type.value = b.type.value) &&
         decide (a.host = b.host) && decide (a.database = b.database) &&
         decide (a.schema = b.schema) &&
         decide ([x.airtable_id] = [y.airtable_id]))

/-- `StyleAirtable` attributes (lines 1198-1235). -/
structure StyleAirtable where
  airtable_id : Option Nat
  id : String
  name : String
  title : String
  type : StyleTypeAirtable
  workspace : Option NamespaceAirtable
deriving DecidableEq, Repr

/-- Fields of a Layer record (`ID, Name, Title, Type, Geometry, Services,
Table/View, Workspace, Store, Styles`).  `Geometry` and `TableView` are
doubly optional: the outer layer is key presence, the inner `Option` is a
possibly-`None` value (outbound always emits the `Geometry` key, with
`None` when the layer has no geometry, lines 1356 and 1363-1364). -/
structure LayerFields where
  ID : Option String
  Name : Option String
  Title : Option String
  TypeF : Option String
  Geometry : Option (Option String)
  Services : Option (List String)
  TableView : Option (Option String)
  Workspace : Option (List (Option Nat))
  Store : Option (List (Option Nat))
  Styles : Option (List (Option Nat))
deriving DecidableEq, Repr

/-- `LayerAirtable` attributes (lines 1269-1342). -/
structure LayerAirtable where
  airtable_id : Option Nat
  id : String
  name : String
  title : String
  type : LayerTypeAirtable
  geometry : Option LayerGeometryAirtable
  services : List LayerServiceAirtable
  table_view : Option String
  workspace : Option NamespaceAirtable
  store : Option RepositoryAirtable
  styles : List StyleAirtable
deriving DecidableEq, Repr

/-- One iteration of the outbound `Styles` loop of `LayerAirtable.__init__`
(lines 1302-1303): resolve the style through the sibling bridge's
`get_by_id`. -/
def ofLayerStylesStep (stys : EngineState StyleAirtable)
    (acc : List StyleAirtable) (sty : Style) : Except PyErr (List StyleAirtable) := do
  let sa ← getById stys sty.id
  pure (acc ++ [sa])

/-- One iteration of the inbound `Services` loop of `LayerAirtable.__init__`
(lines 1313-1315): each display value is coerced by value, `ValueError`
escaping. -/
def layerServicesStep (acc : List LayerServiceAirtable) (raw : String) :
    Except PyErr (List LayerServiceAirtable) := do
  let v ← coerceEnum (LayerServiceAirtable.ofValue raw)
  pure (acc ++ [v])

/-- One iteration of the inbound `Styles` loop of `LayerAirtable.__init__`
(lines 1333-1340): each referenced record identifier is resolved through
the sibling `StylesAirtable` bridge, a dangling one re-raising `KeyError`. -/
def layerStylesStep (stys : EngineState StyleAirtable)
    (acc : List StyleAirtable) (x : Option Nat) : Except PyErr (List StyleAirtable) :=
  match getByAirtableId stys x with
  | .error _ => throw PyErr.keyError
  | .ok v => pure (acc ++ [v])

/-- `LayerAirtable.__init__`, outbound branch (lines 1289-1303): scalar
attributes are copied through the by-name enumeration lookups, and each
relationship is resolved through the sibling bridge's `get_by_id`
(`Layer.relationships` targets of `None` raise `AttributeError` when their
`id` is read; a missing local sibling raises `KeyError`). -/
def LayerAirtable.ofLayer (l : Layer) (nss : EngineState NamespaceAirtable)
    (reps : EngineState RepositoryAirtable) (stys : EngineState StyleAirtable) :
    Except PyErr LayerAirtable := do
  let ty := LayerTypeAirtable.ofName l.type
  let geom := l.geometry_type.map LayerGeometryAirtable.ofName
  let svcs := l.services.map LayerServiceAirtable.ofName
  let nsEnt ← match l.namespaces with
    | none => throw PyErr.attributeError
    | some e => pure e
  let w ← getById nss nsEnt.id
  let repEnt ← match l.repositories with
    | none => throw PyErr.attributeError
    | some e => pure e
  let st ← getById reps repEnt.id
  let sts ← l.styles.foldlM (ofLayerStylesStep stys) ([] : List StyleAirtable)
  pure { airtable_id := none, id := l.id, name := l.label, title := l.title,
         type := ty, geometry := geom, services := svcs,
         table_view := l.table_view, workspace := some w, store := some st,
         styles := sts }

/-- `LayerAirtable.__init__`, inbound branch (lines 1304-1340), reading the
fields in source order: the `Type`, `Geometry` and `Services` display
values are coerced by value (`ValueError` escapes), and the `Workspace`,
`Store` and `Styles` references are resolved through the sibling bridges
(always supplied by `LayersAirtable`, lines 1593-1595); a dangling
reference re-raises `KeyError` and an empty `Workspace`/`Store` list
raises `IndexError`. -/
def LayerAirtable.parse (nss : EngineState NamespaceAirtable)
    (reps : EngineState RepositoryAirtable) (stys : EngineState StyleAirtable)
    (r : AirtableRecord LayerFields) : Except PyErr LayerAirtable := do
  let i ← reqField r.fields.ID
  let n ← reqField r.fields.Name
  let ti ← reqField r.fields.Title
  let tyRaw ← reqField r.fields.TypeF
  let ty ← coerceEnum (LayerTypeAirtable.ofValue tyRaw)
  let geom ← match r.fields.Geometry with
    | none => pure (none : Option LayerGeometryAirtable)
    | some raw => do
      let g ← coerceEnum (LayerGeometryAirtable.ofValue raw)
      pure (some g)
  let svcs ← match r.fields.Services with
    | none => pure ([] : List LayerServiceAirtable)
    | some raws => raws.foldlM layerServicesStep ([] : List LayerServiceAirtable)
  let tv := match r.fields.TableView with
    | none => none
    | some inner => inner
  let w ← match r.fields.Workspace with
    | none => pure (none : Option NamespaceAirtable)
    | some [] => throw PyErr.indexError
    | some (x :: _) =>
      match getByAirtableId nss x with
      | .error _ => throw PyErr.keyError
      | .ok v => pure (some v)
  let st ← match r.fields.Store with
    | none => pure (none : Option RepositoryAirtable)
    | some [] => throw PyErr.indexError
    | some (x :: _) =>
      match getByAirtableId reps x with
      | .error _ => throw PyErr.keyError
      | .ok v => pure (some v)
  let sts ← match r.fields.Styles with
    | none => pure ([] : List StyleAirtable)
    | some xs => xs.foldlM (layerStylesStep stys) ([] : List StyleAirtable)
  pure { airtable_id := some r.id, id := i, name := n, title := ti,
         type := ty, geometry := geom, services := svcs, table_view := tv,
         workspace := w, store := st, styles := sts }

/-- `LayerAirtable.airtable_fields` (lines 1344-1366): the `Geometry` key is
always present, `None` unless a geometry is set; `Workspace` and `Store`
read `airtable_id` off the related adapters (`AttributeError` when absent);
`Services` and `Styles` are lists (empty lists included, never omitted). -/
def LayerAirtable.airtable_fields (a : LayerAirtable) : Except PyErr LayerFields :=
  match a.workspace with
  | none => Except.error .attributeError
  | some w =>
    match a.store with
    | none => Except.error .attributeError
    | some st => Except.ok
        { ID := some a.id, Name := some a.name, Title := some a.title,
          TypeF := some a.type.value,
          Geometry := some (a.geometry.map LayerGeometryAirtable.value),
          Services := some (a.services.map LayerServiceAirtable.value),
          TableView := some a.table_view,
          Workspace := some [w.airtable_id],
          Store := some [st.airtable_id],
          Styles := some (a.styles.map (fun sa => sa.airtable_id)) }

/-- `LayerAirtable.__eq__` via `_dict` (lines 1368-1397): `_dict` reads
`self.workspace.airtable_id` and `self.store.airtable_id` unconditionally
(`AttributeError` when either is absent, `self` first), and compares
scalars by display value, the `geometry` entry (`None` or display value),
the service display values, and the remote-identifier lists of `workspace`,
`store` and `styles`. -/
def LayerAirtable.beqE (a b : LayerAirtable) : Except PyErr Bool :=
  match a.workspace, a.store with
  | some wa, some sta =>
    match b.workspace, b.store with
    | some wb, some stb => Except.ok
        (decide (a.id = b.id) && decide (a.name = b.name) &&
         decide (a.title = b.title) && decide (a.type.value = b.type.value) &&
         decide (a.geometry.map LayerGeometryAirtable.value =
                 b.geometry.map LayerGeometryAirtable.value) &&
         decide (a.services.map LayerServiceAirtable.value =
                 b.services.map LayerServiceAirtable.value) &&
         decide (a.table_view = b.table_view) &&
         decide ([wa.airtable_id] = [wb.airtable_id]) &&
         decide ([sta.airtable_id] = [stb.airtable_id]) &&
         decide (a.styles.map (fun sa => sa.airtable_id) =
                 b.styles.map (fun sa => sa.airtable_id)))
    | _, _ => Except.error .attributeError
  | _, _ => Except.error .attributeError

/-- `layerKind` packages the `LayerAirtable` adapter with its three sibling
bridges (`LayersAirtable`, lines 1577-1596). -/
def layerKind (nss : EngineState NamespaceAirtable)
    (reps : EngineState RepositoryAirtable) (stys : EngineState StyleAirtable) :
    KindApi LayerFields LayerAirtable where
  declaredId f := f.ID
  parse := LayerAirtable.parse nss reps stys
  localId a := a.id
  airtableId a := a.airtable_id
  setAirtableId a x := { a with airtable_id := x }
  beq := LayerAirtable.beqE
  fields := LayerAirtable.airtable_fields

/-! Concrete scenario data used by the closed theorems below: a server
collection with a single local item, and a handful of record field
mappings. -/

/-- Scenario: one local server adapter, not yet correlated. -/
def witServer : ServerAirtable :=
  { airtable_id := none, id := "s1", name := "a", hostname := "h",
    type := .geoserver, version := "1" }

/-- Scenario: freshly-constructed engine state holding `witServer`. -/
def statPartWitState : EngineState ServerAirtable :=
  { items_local := [("s1", witServer)], items_airtable := [],
    airtable_ids_to_ids := [], missing := [], current := [], outdated := [],
    orphaned := [] }

/-- Scenario: the remote field mapping matching `witServer`. -/
def statPartWitFields : ServerFields :=
  { ID := some "s1", Name := some "a", Hostname := some "h",
    TypeF := some "GeoServer", Version := some "1" }

/-- Scenario: `witServer` correlated with record 7. -/
def witServer7 : ServerAirtable := { witServer with airtable_id := some 7 }

/-- Scenario: the state produced by `stat` on `statPartWitState` with the
single record 7 carrying `statPartWitFields`. -/
def statPartWitState' : EngineState ServerAirtable :=
  { items_local := [("s1", witServer7)], items_airtable := [("s1", witServer7)],
    airtable_ids_to_ids := [(some 7, "s1")], missing := [], current := ["s1"],
    outdated := [], orphaned := [] }

/-- Scenario: an engine state with no local items but one bridge pair left
over from an earlier pass. -/
def bridgeWitState : EngineState ServerAirtable :=
  { items_local := [], items_airtable := [], airtable_ids_to_ids := [(some 5, "x")],
    missing := [], current := [], outdated := [], orphaned := [] }

/-- Scenario: `bridgeWitState` polluted with arbitrary stale collection and
classification contents. -/
def bridgeWitStateJunk : EngineState ServerAirtable :=
  { bridgeWitState with
    items_airtable := [("s1", witServer)],
    missing := ["m"], current := ["c"], outdated := ["o"], orphaned := ["p"] }

/-- Scenario: an engine state with no local items and nothing else. -/
def emptyState : EngineState ServerAirtable :=
  { items_local := [], items_airtable := [], airtable_ids_to_ids := [],
    missing := [], current := [], outdated := [], orphaned := [] }

/-- Scenario: a well-formed record declaring the local identifier `x`,
which no local item carries. -/
def witOrphFields : ServerFields :=
  { ID := some "x", Name := some "a", Hostname := some "h",
    TypeF := some "GeoServer", Version := some "1" }

/-- Scenario: the remote table holding only the orphan record 1. -/
def orphanTable : RemoteTable ServerFields :=
  { records := [⟨1, witOrphFields⟩], nextId := 2 }

/-- Scenario: the adapter parsed from the orphan record 1. -/
def witOrphServer1 : ServerAirtable :=
  { airtable_id := some 1, id := "x", name := "a", hostname := "h",
    type := .geoserver, version := "1" }

/-- Scenario: the state `stat` produces from `emptyState` on `orphanTable`:
the orphan is registered in the remote-side collection and classified. -/
def sOrphState : EngineState ServerAirtable :=
  { items_local := [], items_airtable := [("x", witOrphServer1)],
    airtable_ids_to_ids := [], missing := [], current := [], outdated := [],
    orphaned := ["x"] }

/-- Scenario: a malformed record field mapping lacking the `ID` column. -/
def noIdFields : ServerFields :=
  { ID := none, Name := some "a", Hostname := some "h",
    TypeF := some "GeoServer", Version := some "1" }

/-- Scenario: a malformed record field mapping declaring `x` but lacking the
`Name` column, so inbound construction raises `KeyError`. -/
def noNameFields : ServerFields :=
  { ID := some "x", Name := none, Hostname := none, TypeF := none,
    Version := none }

/-- Scenario: an empty sibling `NamespacesAirtable` bridge. -/
def emptyNsEngine : EngineState NamespaceAirtable :=
  { items_local := [], items_airtable := [], airtable_ids_to_ids := [],
    missing := [], current := [], outdated := [], orphaned := [] }

/-- Scenario: an empty sibling `RepositoriesAirtable` bridge. -/
def emptyRepEngine : EngineState RepositoryAirtable :=
  { items_local := [], items_airtable := [], airtable_ids_to_ids := [],
    missing := [], current := [], outdated := [], orphaned := [] }

/-- Scenario: an empty sibling `StylesAirtable` bridge. -/
def emptyStyEngine : EngineState StyleAirtable :=
  { items_local := [], items_airtable := [], airtable_ids_to_ids := [],
    missing := [], current := [], outdated := [], orphaned := [] }

/-- Scenario: an empty layer engine state. -/
def emptyLayerEngine : EngineState LayerAirtable :=
  { items_local := [], items_airtable := [], airtable_ids_to_ids := [],
    missing := [], current := [], outdated := [], orphaned := [] }

/-- Scenario: a layer record whose `Type` field holds a display value
outside the vocabulary. -/
def badTypeLayerFields : LayerFields :=
  { ID := some "l1", Name := some "n", Title := some "t", TypeF := some "Foo",
    Geometry := none, Services := none, TableView := none, Workspace := none,
    Store := none, Styles := none }

/-- Scenario: a namespace record whose `Server` field references the remote
identifier 99, absent from the sibling bridge. -/
def danglingNsFields : NamespaceFields :=
  { ID := some "n1", Name := some "nn", Title := some "tt", Isolated := none,
    Server := some [some 99] }

/-- Scenario: the remote namespace table holding only the dangling record. -/
def danglingNsTable : RemoteTable NamespaceFields :=
  { records := [⟨4, danglingNsFields⟩], nextId := 5 }

/-- Scenario: a server adapter correlated with remote record 1. -/
def witSv1 : ServerAirtable :=
  { airtable_id := some 1, id := "s1", name := "a", hostname := "h",
    type := .geoserver, version := "1" }

/-- Scenario: the same server content correlated with remote record 2. -/
def witSv2 : ServerAirtable := { witSv1 with airtable_id := some 2 }

/-- Scenario: a namespace adapter referencing `witSv1`. -/
def witNs1 : NamespaceAirtable :=
  { airtable_id := some 10, id := "n1", name := "nn", title := "tt",
    isolated := false, server := some witSv1 }

/-- Scenario: the same namespace content referencing `witSv2` instead. -/
def witNs2 : NamespaceAirtable :=
  { airtable_id := some 11, id := "n1", name := "nn", title := "tt",
    isolated := false, server := some witSv2 }

/-- Scenario: a repository adapter referencing `witNs1`. -/
def witRepo1 : RepositoryAirtable :=
  { airtable_id := some 20, id := "r1", name := "rn", title := "rt",
    type := .postgis, host := some "db", database := some "d",
    schema := some "sc", workspace := some witNs1 }

/-- Scenario: a local namespace entity matching `witNs1`. -/
def c5NsEntity : Namespace :=
  { id := "n1", label := "nn", title := "tt", nsUri := "u", isolated := false,
    servers := none }

/-- Scenario: a local repository entity matching `witRepo1`. -/
def c5RepoEntity : Repository :=
  { id := "r1", label := "rn", title := "rt", type := .postgis,
    hostname := some "db", database := some "d", schema := some "sc",
    namespaces := none }

/-- Scenario: a raster layer without geometry. -/
def c5Layer : Layer :=
  { id := "l1", label := "ln", title := "lt", type := .raster,
    geometry_type := none, services := [], table_view := none,
    namespaces := some c5NsEntity, repositories := some c5RepoEntity,
    styles := [] }

/-- Scenario: sibling namespace bridge holding `witNs1`, correlated. -/
def c5NsEngine : EngineState NamespaceAirtable :=
  { items_local := [("n1", witNs1)], items_airtable := [],
    airtable_ids_to_ids := [(some 10, "n1")], missing := [], current := [],
    outdated := [], orphaned := [] }

/-- Scenario: sibling repository bridge holding `witRepo1`, correlated. -/
def c5RepEngine : EngineState RepositoryAirtable :=
  { items_local := [("r1", witRepo1)], items_airtable := [],
    airtable_ids_to_ids := [(some 20, "r1")], missing := [], current := [],
    outdated := [], orphaned := [] }

/-- Scenario: the outbound adapter of `c5Layer`. -/
def c5Adapter : LayerAirtable :=
  { airtable_id := none, id := "l1", name := "ln", title := "lt",
    type := .raster, geometry := none, services := [], table_view := none,
    workspace := some witNs1, store := some witRepo1, styles := [] }

/-- Scenario: the field mapping `c5Adapter.airtable_fields` produces; note
the always-present `Geometry` key holding Python `None`. -/
def c5Fields : LayerFields :=
  { ID := some "l1", Name := some "ln", Title := some "lt",
    TypeF := some "Raster", Geometry := some none, Services := some [],
    TableView := some none, Workspace := some [some 10],
    Store := some [some 20], Styles := some [] }

/-- Scenario: a vector layer with a geometry, services and a table view. -/
def c5LayerG : Layer :=
  { id := "l2", label := "lg", title := "lt2", type := .vector,
    geometry_type := some .point, services := [.wms], table_view := some "tv",
    namespaces := some c5NsEntity, repositories := some c5RepoEntity,
    styles := [] }

/-- Scenario: the outbound adapter of `c5LayerG`. -/
def c5AdapterG : LayerAirtable :=
  { airtable_id := none, id := "l2", name := "lg", title := "lt2",
    type := .vector, geometry := some .point, services := [.wms],
    table_view := some "tv", workspace := some witNs1,
    store := some witRepo1, styles := [] }

/-- Scenario: the remote table holding only the unparseable record 5. -/
def tBadTable : RemoteTable ServerFields :=
  { records := [⟨5, noNameFields⟩], nextId := 6 }

/-- Scenario: the state `stat` produces from `emptyState` on `tBadTable`:
the record is orphaned without being registered. -/
def sBadState : EngineState ServerAirtable :=
  { items_local := [], items_airtable := [], airtable_ids_to_ids := [],
    missing := [], current := [], outdated := [], orphaned := ["x"] }

/-- Scenario: the state `stat` produces from `statPartWitState` on
`orphanTable`: the local item is missing, the orphan registered. -/
def c3StatState : EngineState ServerAirtable :=
  { items_local := [("s1", witServer)], items_airtable := [("x", witOrphServer1)],
    airtable_ids_to_ids := [], missing := ["s1"], current := [], outdated := [],
    orphaned := ["x"] }

/-- Scenario: `orphanTable` after `sync` from `c3StatState`: the missing
local item inserted as record 2, the orphan record 1 deleted. -/
def c3SyncedTable : RemoteTable ServerFields :=
  { records := [⟨2, statPartWitFields⟩], nextId := 3 }

/-- Scenario: the adapter parsed from the orphan record 2. -/
def witOrphServer2 : ServerAirtable :=
  { airtable_id := some 2, id := "x", name := "a", hostname := "h",
    type := .geoserver, version := "1" }

/-- Scenario: a remote table with two well-formed records both declaring the
absent local identifier `x`. -/
def c2Table : RemoteTable ServerFields :=
  { records := [⟨1, witOrphFields⟩, ⟨2, witOrphFields⟩], nextId := 3 }

/-- Scenario: the state `stat` produces from `emptyState` on `c2Table`: the
second registration overwrites the first, `x` is orphaned twice. -/
def c2State : EngineState ServerAirtable :=
  { items_local := [], items_airtable := [("x", witOrphServer2)],
    airtable_ids_to_ids := [], missing := [], current := [], outdated := [],
    orphaned := ["x", "x"] }

/-- Scenario: `c2Table` after `sync` from `c2State`: only record 2 (the one
the surviving registration points at) was deleted; record 1 remains. -/
def c2Synced : RemoteTable ServerFields :=
  { records := [⟨1, witOrphFields⟩], nextId := 3 }

/-- Scenario: an empty remote table. -/
def c2EmptyTable : RemoteTable ServerFields :=
  { records := [], nextId := 1 }

/-! Lemmas about the modelled Python dictionaries. -/

theorem dGet_dSet_self {κ ν : Type} [DecidableEq κ] (l : List (κ × ν)) (k : κ) (v : ν) :
    dGet (dSet l k v) k = some v := by
  induction l with
  | nil => simp [dGet, dSet]
  | cons p rest ih =>
    obtain ⟨k', v'⟩ := p
    by_cases h : k' = k
    · simp [dSet, h, dGet]
    · simp [dSet, h, dGet, ih]

theorem dGet_dSet_ne {κ ν : Type} [DecidableEq κ] (l : List (κ × ν)) (k j : κ) (v : ν)
    (hne : k ≠ j) : dGet (dSet l k v) j = dGet l j := by
  induction l with
  | nil => simp [dGet, dSet, hne]
  | cons p rest ih =>
    obtain ⟨k', v'⟩ := p
    by_cases h : k' = k
    · subst h
      simp [dSet, dGet, hne]
    · simp [dSet, h, dGet, ih]

theorem dGet_eq_none_iff {κ ν : Type} [DecidableEq κ] (l : List (κ × ν)) (k : κ) :
    dGet l k = none ↔ k ∉ dKeys l := by
  induction l with
  | nil => simp [dGet, dKeys]
  | cons p rest ih =>
    obtain ⟨k', v'⟩ := p
    by_cases h : k' = k
    · subst h
      simp [dGet, dKeys]
    · simp [dGet, h, dKeys, ih, Ne.symm h]


theorem dGet_mem {κ ν : Type} [DecidableEq κ] (l : List (κ × ν)) (k : κ) (v : ν)
    (h : dGet l k = some v) : (k, v) ∈ l := by
  induction l with
  | nil => simp [dGet] at h
  | cons p rest ih =>
    obtain ⟨k', v'⟩ := p
    by_cases hk : k' = k
    · subst hk
      simp [dGet] at h
      simp [h]
    · simp [dGet, hk] at h
      simp [ih h]

theorem dGet_of_mem_nodup {κ ν : Type} [DecidableEq κ] (l : List (κ × ν))
    (hN : (dKeys l).Nodup) (p : κ × ν) (hp : p ∈ l) : dGet l p.1 = some p.2 := by
  induction l with
  | nil => simp at hp
  | cons q rest ih =>
    obtain ⟨k', v'⟩ := q
    simp [dKeys, List.nodup_cons] at hN
    rcases List.mem_cons.1 hp with h | h
    · subst h
      simp [dGet]
    · have hne : k' ≠ p.1 := by
        intro he
        apply hN.1 p.2
        rw [he]
        simpa using h
      simp [dGet, hne]
      exact ih hN.2 h

theorem dKeys_dSet_of_get {κ ν : Type} [DecidableEq κ] (l : List (κ × ν)) (k : κ)
    (w v : ν) (h : dGet l k = some w) : dKeys (dSet l k v) = dKeys l := by
  induction l with
  | nil => simp [dGet] at h
  | cons p rest ih =>
    obtain ⟨k', v'⟩ := p
    by_cases hk : k' = k
    · subst hk
      simp [dSet, dKeys]
    · simp [dGet, hk] at h
      simp [dSet, hk, dKeys] at ih ⊢
      exact ih h

theorem dSet_eq_map {κ ν : Type} [DecidableEq κ] (l : List (κ × ν)) (k : κ) (w v : ν)
    (hN : (dKeys l).Nodup) (h : dGet l k = some w) :
    dSet l k v = l.map (fun p => if p.1 = k then (k, v) else p) := by
  induction l with
  | nil => simp [dGet] at h
  | cons p rest ih =>
    obtain ⟨k', v'⟩ := p
    simp [dKeys, List.nodup_cons] at hN
    by_cases hk : k' = k
    · subst hk
      simp [dSet, dGet] at h ⊢
      have : ∀ q ∈ rest, (fun p => if p.1 = k' then (k', v) else p) q = q := by
        intro q hq
        have : q.1 ≠ k' := by
          intro he
          apply hN.1 q.2
          rw [← he]
          simpa using hq
        simp [this]
      rw [List.map_congr_left this, List.map_id']
    · simp [dGet, hk] at h
      simp [dSet, hk, ih hN.2 h]

/-! Lemmas about `Except` folds. -/

theorem except_bind_ok {ε β γ : Type} {x : Except ε β} {f : β → Except ε γ} {v : γ}
    (h : x >>= f = .ok v) : ∃ w, x = .ok w ∧ f w = .ok v := by
  cases x with
  | error e => simp [Bind.bind, Except.bind] at h
  | ok w => exact ⟨w, rfl, by simpa [Bind.bind, Except.bind] using h⟩

theorem except_ok_bind {ε β γ : Type} (w : β) (f : β → Except ε γ) :
    (Except.ok w >>= f : Except ε γ) = f w := rfl

theorem except_error_bind {ε β γ : Type} (e : ε) (f : β → Except ε γ) :
    (Except.error e >>= f : Except ε γ) = Except.error e := rfl

theorem foldlM_cons_except {ε β γ : Type} (f : γ → β → Except ε γ) (b : γ) (a : β)
    (l : List β) : (a :: l).foldlM f b = f b a >>= fun b' => l.foldlM f b' := by
  simp [List.foldlM]

theorem foldlM_nil_except {ε β γ : Type} (f : γ → β → Except ε γ) (b : γ) :
    ([] : List β).foldlM f b = Except.ok b := rfl

/-! Shape lemmas about one record-scan step of `stat`. -/

theorem statStep_ok_shape {F α : Type} (k : KindApi F α) (s : EngineState α)
    (r : AirtableRecord F) (s' : EngineState α) (h : statStep k s r = .ok s') :
    s'.missing = s.missing ∧ s'.current = s.current ∧ s'.outdated = s.outdated ∧
    dKeys s'.items_local = dKeys s.items_local := by
  unfold statStep at h
  split at h
  · exact absurd h (by simp)
  · split at h
    · cases h
      simp [dKeys]
    · exact absurd h (by simp)
    · split at h
      · cases h
        simp [dKeys]
      · rename_i item litem hget
        cases h
        refine ⟨rfl, rfl, rfl, ?_⟩
        exact dKeys_dSet_of_get _ _ _ _ hget

theorem statStep_orphan {F α : Type} (k : KindApi F α) (s : EngineState α)
    (r : AirtableRecord F) (s' : EngineState α) (h : statStep k s r = .ok s') :
    ∃ tail, s'.orphaned = s.orphaned ++ tail ∧
      ∀ o, statStep k { s with orphaned := o } r = .ok { s' with orphaned := o ++ tail } := by
  unfold statStep at h
  split at h
  · exact absurd h (by simp)
  · rename_i item_id hdecl
    split at h
    · rename_i hparse
      cases h
      refine ⟨[item_id], rfl, fun o => ?_⟩
      unfold statStep
      rw [hdecl, hparse]
    · exact absurd h (by simp)
    · rename_i item hparse
      split at h
      · rename_i hget
        cases h
        refine ⟨[item_id], rfl, fun o => ?_⟩
        unfold statStep
        rw [hdecl, hparse]
        simp only [hget]
      · rename_i litem hget
        cases h
        refine ⟨[], by simp, fun o => ?_⟩
        unfold statStep
        rw [hdecl, hparse]
        simp only [hget]
        simp

theorem statStep_error_orphaned {F α : Type} (k : KindApi F α) (s : EngineState α)
    (r : AirtableRecord F) (e : PyErr) (h : statStep k s r = .error e) :
    ∀ o, statStep k { s with orphaned := o } r = .error e := by
  intro o
  unfold statStep at h ⊢
  split at h
  · exact h
  · rename_i item_id hdecl
    split at h
    · exact absurd h (by simp)
    · exact h
    · rename_i item hparse
      split at h <;> exact absurd h (by simp)

theorem recLoop_orphan {F α : Type} (k : KindApi F α) (rs : List (AirtableRecord F)) :
    ∀ (s s' : EngineState α), rs.foldlM (statStep k) s = .ok s' →
      ∃ tail, s'.orphaned = s.orphaned ++ tail ∧
        ∀ o, rs.foldlM (statStep k) { s with orphaned := o } =
          .ok { s' with orphaned := o ++ tail } := by
  induction rs with
  | nil =>
    intro s s' h
    rw [foldlM_nil_except] at h
    cases h
    exact ⟨[], by simp, fun o => by rw [foldlM_nil_except]; simp⟩
  | cons r rest ih =>
    intro s s' h
    rw [foldlM_cons_except] at h
    obtain ⟨s₁, hstep, hrest⟩ := except_bind_ok h
    obtain ⟨t1, ht1, hstepAll⟩ := statStep_orphan k s r s₁ hstep
    obtain ⟨t2, ht2, hrestAll⟩ := ih s₁ s' hrest
    refine ⟨t1 ++ t2, by simp [ht2, ht1], fun o => ?_⟩
    rw [foldlM_cons_except, hstepAll o, except_ok_bind]
    have := hrestAll (o ++ t1)
    rw [show ({ s₁ with orphaned := o ++ t1 } : EngineState α) =
      { ({ s₁ with orphaned := o ++ t1 }) with orphaned := o ++ t1 } from rfl] at this
    simpa [List.append_assoc] using this

theorem map_snd_dSet {κ ν γ : Type} [DecidableEq κ] (g : ν → γ) (l : List (κ × ν))
    (k : κ) (v w : ν) (h : dGet l k = some w) (hg : g v = g w) :
    (dSet l k v).map (fun p => g p.2) = l.map (fun p => g p.2) := by
  induction l with
  | nil => simp [dGet] at h
  | cons p rest ih =>
    obtain ⟨k', v'⟩ := p
    by_cases hk : k' = k
    · subst hk
      simp [dGet] at h
      subst h
      simp [dSet, hg]
    · simp [dGet, hk] at h
      simp [dSet, hk, ih h]

theorem statStep_localIds {F α : Type} (k : KindApi F α)
    (hLoc : ∀ a x, k.localId (k.setAirtableId a x) = k.localId a)
    (s : EngineState α) (r : AirtableRecord F) (s' : EngineState α)
    (h : statStep k s r = .ok s') :
    s'.items_local.map (fun p => k.localId p.2) =
      s.items_local.map (fun p => k.localId p.2) := by
  unfold statStep at h
  split at h
  · exact absurd h (by simp)
  · split at h
    · cases h
      rfl
    · exact absurd h (by simp)
    · rename_i item hparse
      split at h
      · cases h
        rfl
      · rename_i litem hget
        cases h
        exact map_snd_dSet _ _ _ _ _ hget (hLoc litem (k.airtableId item))

theorem recLoop_localIds {F α : Type} (k : KindApi F α)
    (hLoc : ∀ a x, k.localId (k.setAirtableId a x) = k.localId a)
    (rs : List (AirtableRecord F)) :
    ∀ (s s' : EngineState α), rs.foldlM (statStep k) s = .ok s' →
      s'.items_local.map (fun p => k.localId p.2) =
        s.items_local.map (fun p => k.localId p.2) := by
  induction rs with
  | nil =>
    intro s s' h
    rw [foldlM_nil_except] at h
    cases h
    rfl
  | cons r rest ih =>
    intro s s' h
    rw [foldlM_cons_except] at h
    obtain ⟨s₁, hstep, hrest⟩ := except_bind_ok h
    rw [ih s₁ s' hrest, statStep_localIds k hLoc s r s₁ hstep]

theorem recLoop_mco {F α : Type} (k : KindApi F α) (rs : List (AirtableRecord F)) :
    ∀ (s s' : EngineState α), rs.foldlM (statStep k) s = .ok s' →
      s'.missing = s.missing ∧ s'.current = s.current ∧ s'.outdated = s.outdated := by
  induction rs with
  | nil =>
    intro s s' h
    rw [foldlM_nil_except] at h
    cases h
    exact ⟨rfl, rfl, rfl⟩
  | cons r rest ih =>
    intro s s' h
    rw [foldlM_cons_except] at h
    obtain ⟨s₁, hstep, hrest⟩ := except_bind_ok h
    obtain ⟨h1, h2, h3, _⟩ := statStep_ok_shape k s r s₁ hstep
    obtain ⟨h4, h5, h6⟩ := ih s₁ s' hrest
    exact ⟨h4.trans h1, h5.trans h2, h6.trans h3⟩

theorem classifyStep_count {F α : Type} (k : KindApi F α) (s : EngineState α)
    (a : α) (s' : EngineState α) (h : classifyStep k s a = .ok s') :
    s'.items_local = s.items_local ∧
    (∀ i, (s'.missing ++ s'.current ++ s'.outdated).count i =
      (s.missing ++ s.current ++ s.outdated).count i + [k.localId a].count i) := by
  unfold classifyStep at h
  split at h
  · cases h
    refine ⟨rfl, fun i => ?_⟩
    by_cases hi : i = k.localId a <;>
      simp [List.count_append, List.count_cons, hi] <;> omega
  · split at h
    · exact absurd h (by simp)
    · rename_i b hb bl
      split at h <;>
      · cases h
        refine ⟨rfl, fun i => ?_⟩
        by_cases hi : i = k.localId a <;>
          simp [List.count_append, List.count_cons, hi] <;> omega

theorem classifyFold_count {F α : Type} (k : KindApi F α) (vs : List α) :
    ∀ (s s' : EngineState α), vs.foldlM (classifyStep k) s = .ok s' →
      s'.items_local = s.items_local ∧
      (∀ i, (s'.missing ++ s'.current ++ s'.outdated).count i =
        (s.missing ++ s.current ++ s.outdated).count i + (vs.map k.localId).count i) := by
  induction vs with
  | nil =>
    intro s s' h
    rw [foldlM_nil_except] at h
    cases h
    exact ⟨rfl, fun i => by simp⟩
  | cons a rest ih =>
    intro s s' h
    rw [foldlM_cons_except] at h
    obtain ⟨s₁, hstep, hrest⟩ := except_bind_ok h
    obtain ⟨hl1, hc1⟩ := classifyStep_count k s a s₁ hstep
    obtain ⟨hl2, hc2⟩ := ih s₁ s' hrest
    refine ⟨hl2.trans hl1, fun i => ?_⟩
    rw [hc2 i, hc1 i]
    simp [List.count_cons]
    omega

theorem classifyStep_frame {F α : Type} (k : KindApi F α) (s : EngineState α)
    (a : α) (s' : EngineState α) (h : classifyStep k s a = .ok s') :
    s'.items_local = s.items_local ∧ s'.items_airtable = s.items_airtable ∧
    s'.airtable_ids_to_ids = s.airtable_ids_to_ids ∧ s'.orphaned = s.orphaned := by
  unfold classifyStep at h
  split at h
  · cases h
    exact ⟨rfl, rfl, rfl, rfl⟩
  · split at h
    · exact absurd h (by simp)
    · split at h <;>
      · cases h
        exact ⟨rfl, rfl, rfl, rfl⟩

theorem classifyFold_frame {F α : Type} (k : KindApi F α) (vs : List α) :
    ∀ (s s' : EngineState α), vs.foldlM (classifyStep k) s = .ok s' →
      s'.items_local = s.items_local ∧ s'.items_airtable = s.items_airtable ∧
      s'.airtable_ids_to_ids = s.airtable_ids_to_ids ∧ s'.orphaned = s.orphaned := by
  induction vs with
  | nil =>
    intro s s' h
    rw [foldlM_nil_except] at h
    cases h
    exact ⟨rfl, rfl, rfl, rfl⟩
  | cons a rest ih =>
    intro s s' h
    rw [foldlM_cons_except] at h
    obtain ⟨s₁, hstep, hrest⟩ := except_bind_ok h
    obtain ⟨a1, a2, a3, a4⟩ := classifyStep_frame k s a s₁ hstep
    obtain ⟨b1, b2, b3, b4⟩ := ih s₁ s' hrest
    exact ⟨b1.trans a1, b2.trans a2, b3.trans a3, b4.trans a4⟩

theorem classifyStep_orphaned {F α : Type} (k : KindApi F α) (s : EngineState α)
    (a : α) (s' : EngineState α) (h : classifyStep k s a = .ok s') :
    ∀ o, classifyStep k { s with orphaned := o } a = .ok { s' with orphaned := o } := by
  intro o
  unfold classifyStep at h ⊢
  split at h
  · rename_i hget
    cases h
    simp only [hget]
  · rename_i b hget
    split at h
    · exact absurd h (by simp)
    · rename_i bl hb
      simp only [hget, hb]
      split at h <;> rename_i hbl <;>
      · cases h
        simp [hbl]

theorem classifyFold_orphaned {F α : Type} (k : KindApi F α) (vs : List α) :
    ∀ (s s' : EngineState α), vs.foldlM (classifyStep k) s = .ok s' →
      ∀ o, vs.foldlM (classifyStep k) { s with orphaned := o } =
        .ok { s' with orphaned := o } := by
  induction vs with
  | nil =>
    intro s s' h o
    rw [foldlM_nil_except] at h
    cases h
    rw [foldlM_nil_except]
  | cons a rest ih =>
    intro s s' h o
    rw [foldlM_cons_except] at h
    obtain ⟨s₁, hstep, hrest⟩ := except_bind_ok h
    rw [foldlM_cons_except, classifyStep_orphaned k s a s₁ hstep o, except_ok_bind]
    exact ih s₁ s' hrest o

theorem dGet_dSet_isSome {κ ν : Type} [DecidableEq κ] (l : List (κ × ν)) (k j : κ)
    (v : ν) (h : (dGet l j).isSome) : (dGet (dSet l k v) j).isSome := by
  by_cases hj : k = j
  · subst hj
    simp [dGet_dSet_self]
  · rw [dGet_dSet_ne l k j v hj]
    exact h

theorem statStep_bridge_mono {F α : Type} (k : KindApi F α) (s : EngineState α)
    (r : AirtableRecord F) (s' : EngineState α) (h : statStep k s r = .ok s')
    (x : Option Nat) (hx : (dGet s.airtable_ids_to_ids x).isSome) :
    (dGet s'.airtable_ids_to_ids x).isSome := by
  unfold statStep at h
  split at h
  · exact absurd h (by simp)
  · split at h
    · cases h
      exact hx
    · exact absurd h (by simp)
    · split at h <;>
      · cases h
        first
        | exact hx
        | exact dGet_dSet_isSome _ _ _ _ hx

theorem recLoop_bridge_mono {F α : Type} (k : KindApi F α) (rs : List (AirtableRecord F)) :
    ∀ (s s' : EngineState α), rs.foldlM (statStep k) s = .ok s' →
      ∀ x, (dGet s.airtable_ids_to_ids x).isSome →
        (dGet s'.airtable_ids_to_ids x).isSome := by
  induction rs with
  | nil =>
    intro s s' h x hx
    rw [foldlM_nil_except] at h
    cases h
    exact hx
  | cons r rest ih =>
    intro s s' h x hx
    rw [foldlM_cons_except] at h
    obtain ⟨s₁, hstep, hrest⟩ := except_bind_ok h
    exact ih s₁ s' hrest x (statStep_bridge_mono k s r s₁ hstep x hx)

/-- C1: For every local collection and every remote table contents, after
`status()` each local item's identifier appears in exactly one of the
returned lists `missing`, `current`, `outdated` — no local identifier is
duplicated within or across these three lists and none is omitted.  (Stated
for any adapter kind whose `airtable_id` update preserves the local
identifier; each occurrence of a local identifier is counted exactly once
across the three lists, and under the dictionary invariant that local
identifiers are distinct, the three lists partition them.) -/
theorem stat_partitions_local_identifiers {F α : Type} (k : KindApi F α)
    (hLoc : ∀ a x, k.localId (k.setAirtableId a x) = k.localId a)
    (s : EngineState α) (records : List (AirtableRecord F)) (s' : EngineState α)
    (h : stat k s records = .ok s') :
    (∀ i, (s'.missing ++ s'.current ++ s'.outdated).count i =
      (s.items_local.map (fun p => k.localId p.2)).count i) ∧
    ((s.items_local.map (fun p => k.localId p.2)).Nodup →
      (s'.missing ++ s'.current ++ s'.outdated).Nodup ∧
      ∀ i, i ∈ s.items_local.map (fun p => k.localId p.2) ↔
        i ∈ s'.missing ++ s'.current ++ s'.outdated) := by
  unfold stat at h
  obtain ⟨s1, hrec, hcls⟩ := except_bind_ok h
  have hids := recLoop_localIds k hLoc records _ s1 hrec
  obtain ⟨hm, hc, ho⟩ := recLoop_mco k records _ s1 hrec
  simp only [] at hm hc ho
  obtain ⟨_, hcount⟩ := classifyFold_count k (s1.items_local.map Prod.snd) s1 s' hcls
  have hvals : (s1.items_local.map Prod.snd).map k.localId =
      s.items_local.map (fun p => k.localId p.2) := by
    rw [List.map_map]
    exact hids
  have hcount' : ∀ i, (s'.missing ++ s'.current ++ s'.outdated).count i =
      (s.items_local.map (fun p => k.localId p.2)).count i := by
    intro i
    have hx := hcount i
    rw [hvals] at hx
    rw [hx, hm, hc, ho]
    simp
  refine ⟨hcount', fun hnd => ?_⟩
  have hle : ∀ i, (s'.missing ++ s'.current ++ s'.outdated).count i ≤ 1 := by
    intro i
    rw [hcount' i]
    exact List.nodup_iff_count_le_one.1 hnd i
  refine ⟨List.nodup_iff_count_le_one.2 hle, fun i => ?_⟩
  rw [← List.count_pos_iff, ← List.count_pos_iff, hcount' i]

/-- Witness for the partition theorem: a server collection with one local
item and one fetched record exercising the `current` branch. -/
theorem stat_partitions_local_identifiers_witness :
    (∀ i, ((statPartWitState' : EngineState ServerAirtable).missing ++
      statPartWitState'.current ++ statPartWitState'.outdated).count i =
      ((statPartWitState : EngineState ServerAirtable).items_local.map
        (fun p => serverKind.localId p.2)).count i) ∧
    (((statPartWitState : EngineState ServerAirtable).items_local.map
        (fun p => serverKind.localId p.2)).Nodup →
      ((statPartWitState' : EngineState ServerAirtable).missing ++
        statPartWitState'.current ++ statPartWitState'.outdated).Nodup ∧
      ∀ i, i ∈ (statPartWitState : EngineState ServerAirtable).items_local.map
          (fun p => serverKind.localId p.2) ↔
        i ∈ statPartWitState'.missing ++ statPartWitState'.current ++
          statPartWitState'.outdated) :=
  stat_partitions_local_identifiers serverKind (fun a x => rfl)
    statPartWitState [⟨7, statPartWitFields⟩] statPartWitState' (by rfl)

/-- C7 counterexample: the claim says every `stat()` discards and rebuilds
the local-to-remote identifier bridge, no pair surviving unless re-derived
from the freshly fetched records.  Here a later `stat()` pass fetches no
records at all — nothing can be re-derived — yet the pair
`(some 5, "x")` recorded earlier survives unchanged, because `stat` (lines
845-851) clears `items_airtable` and the four lists but never clears
`airtable_ids_to_ids`. -/
theorem stat_keeps_stale_bridge_pair_counterexample :
    stat serverKind bridgeWitState [] = .ok bridgeWitState ∧
    bridgeWitState.airtable_ids_to_ids = [(some 5, "x")] :=
  ⟨rfl, rfl⟩

/-- C7 (amended): `stat()` discards and rebuilds the remote-side collection
and the four classification lists — its result is independent of their
previous contents — but the identifier-bridge map is never cleared: every
pair present before the pass is still present (possibly overwritten)
afterwards. -/
theorem stat_rebuilds_lists_keeps_bridge {F α : Type} (k : KindApi F α) :
    (∀ (s : EngineState α) records X m c o orp,
      stat k { s with items_airtable := X, missing := m, current := c,
                      outdated := o, orphaned := orp } records = stat k s records) ∧
    (∀ (s : EngineState α) records s', stat k s records = .ok s' →
      ∀ x, (dGet s.airtable_ids_to_ids x).isSome →
        (dGet s'.airtable_ids_to_ids x).isSome) := by
  constructor
  · intro s records X m c o orp
    rfl
  · intro s records s' h x hx
    unfold stat at h
    obtain ⟨s1, hrec, hcls⟩ := except_bind_ok h
    have h1 := recLoop_bridge_mono k records _ s1 hrec x hx
    obtain ⟨_, _, hbr, _⟩ := classifyFold_frame k _ s1 s' hcls
    rw [hbr]
    exact h1

/-- Witness for the amended C7 theorem, at the stale-bridge scenario. -/
theorem stat_rebuilds_lists_keeps_bridge_witness :
    (stat serverKind bridgeWitStateJunk [] = stat serverKind bridgeWitState []) ∧
    (dGet bridgeWitState.airtable_ids_to_ids (some 5)).isSome :=
  ⟨(stat_rebuilds_lists_keeps_bridge serverKind).1 bridgeWitState []
      [("s1", witServer)] ["m"] ["c"] ["o"] ["p"],
    (stat_rebuilds_lists_keeps_bridge serverKind).2 bridgeWitState [] bridgeWitState
      (by rfl) (some 5) (by decide)⟩

/-! Shape lemmas about `load`, `sync` and `reset`. -/

theorem load_ok_shape {F α : Type} (k : KindApi F α) (s : EngineState α)
    (t t1 : RemoteTable F) (h : load k s t = .ok t1) :
    ∃ fs, t1 = batch_insert t fs := by
  unfold load at h
  obtain ⟨fs, _, hpure⟩ := except_bind_ok h
  exact ⟨fs, by cases hpure; rfl⟩

theorem mem_rupdate_of_ne {F : Type} (t : RemoteTable F) (rid : Nat) (f : F)
    (r : AirtableRecord F) (hr : r ∈ t.records) (hne : r.id ≠ rid) :
    r ∈ (rupdate t rid f).records := by
  unfold rupdate
  have : (fun rr => if rr.id = rid then { rr with fields := f } else rr) r = r := by
    simp [hne]
  rw [← this]
  exact List.mem_map_of_mem _ hr

theorem updFold_mem {F α : Type} (k : KindApi F α) (s : EngineState α) (O : List String) :
    ∀ (acc t2 : RemoteTable F), O.foldlM (updStep k s) acc = .ok t2 →
    ∀ r, r ∈ acc.records →
      (∀ oid ∈ O, ∀ item, dGet s.items_local oid = some item →
        k.airtableId item ≠ some r.id) →
      r ∈ t2.records := by
  induction O with
  | nil =>
    intro acc t2 h r hr _
    rw [foldlM_nil_except] at h
    cases h
    exact hr
  | cons oid rest ih =>
    intro acc t2 h r hr hO
    rw [foldlM_cons_except] at h
    obtain ⟨acc1, hstep, hrest⟩ := except_bind_ok h
    unfold updStep at hstep
    split at hstep
    · exact absurd hstep (by simp [throw, throwThe, MonadExceptOf.throw])
    · rename_i item hget
      split at hstep
      · exact absurd hstep (by simp [throw, throwThe, MonadExceptOf.throw])
      · rename_i f hf
        split at hstep
        · exact absurd hstep (by simp [throw, throwThe, MonadExceptOf.throw])
        · rename_i rid haid
          have hacc1 : acc1 = rupdate acc rid f := by
            cases hstep
            rfl
          subst hacc1
          have hne : r.id ≠ rid := by
            intro he
            exact hO oid (by simp) item hget (by rw [haid, he])
          exact ih _ t2 hrest r (mem_rupdate_of_ne acc rid f r hr hne)
            (fun o ho => hO o (by simp [ho]))

theorem delFold_sound {F α : Type} (k : KindApi F α) (s : EngineState α)
    (t2 : RemoteTable F) (O : List String) :
    ∀ (acc ids : List Nat), O.foldlM (delStep k s t2) acc = .ok ids →
    ∀ rid ∈ ids, rid ∈ acc ∨ ∃ oid ∈ O, ∃ item,
      dGet s.items_airtable oid = some item ∧ k.airtableId item = some rid := by
  induction O with
  | nil =>
    intro acc ids h rid hrid
    rw [foldlM_nil_except] at h
    cases h
    exact Or.inl hrid
  | cons oid rest ih =>
    intro acc ids h rid hrid
    rw [foldlM_cons_except] at h
    obtain ⟨acc1, hstep, hrest⟩ := except_bind_ok h
    unfold delStep at hstep
    split at hstep
    · exact absurd hstep (by simp [throw, throwThe, MonadExceptOf.throw])
    · rename_i item hget
      split at hstep
      · exact absurd hstep (by simp [throw, throwThe, MonadExceptOf.throw])
      · rename_i rid' haid
        have hacc1 : acc1 = acc ++ [rid'] := by
          cases hstep
          rfl
        subst hacc1
        rcases ih _ ids hrest rid hrid with hin | ⟨o, ho, item', hi1, hi2⟩
        · rcases List.mem_append.1 hin with hin | hin
          · exact Or.inl hin
          · have : rid = rid' := by simpa using hin
            exact Or.inr ⟨oid, by simp, item, hget, by rw [haid, this]⟩
        · exact Or.inr ⟨o, by simp [ho], item', hi1, hi2⟩

theorem resetFold_sound {F α : Type} (k : KindApi F α) (t : RemoteTable F) (vs : List α) :
    ∀ (acc ids : List Nat), vs.foldlM (resetStep k t) acc = .ok ids →
    ∀ rid ∈ ids, rid ∈ acc ∨ ∃ item ∈ vs, k.airtableId item = some rid := by
  induction vs with
  | nil =>
    intro acc ids h rid hrid
    rw [foldlM_nil_except] at h
    cases h
    exact Or.inl hrid
  | cons a rest ih =>
    intro acc ids h rid hrid
    rw [foldlM_cons_except] at h
    obtain ⟨acc1, hstep, hrest⟩ := except_bind_ok h
    unfold resetStep at hstep
    split at hstep
    · exact absurd hstep (by simp [throw, throwThe, MonadExceptOf.throw])
    · rename_i rid' haid
      have hacc1 : acc1 = acc ++ [rid'] := by
        cases hstep
        rfl
      subst hacc1
      rcases ih _ ids hrest rid hrid with hin | ⟨item, hi1, hi2⟩
      · rcases List.mem_append.1 hin with hin | hin
        · exact Or.inl hin
        · have : rid = rid' := by simpa using hin
          exact Or.inr ⟨a, by simp, by rw [haid, this]⟩
      · exact Or.inr ⟨item, by simp [hi1], hi2⟩

theorem mem_batch_delete {F : Type} (t : RemoteTable F) (ids : List Nat)
    (r : AirtableRecord F) (hr : r ∈ t.records) (hne : r.id ∉ ids) :
    r ∈ (batch_delete t ids).records := by
  unfold batch_delete
  refine List.mem_filter.2 ⟨hr, ?_⟩
  simpa [List.contains] using hne

/-- C8 counterexample: the claim says `status()`, `sync()` and `reset()`
each begin with a fresh `stat()` pass.  With an engine whose last `stat()`
saw an empty table, and a remote table that now holds one well-formed
orphan record, `sync()` returns the table unchanged and `reset()` deletes
nothing — the orphan record survives both — while a genuine fresh pass
(`status()`) classifies it orphaned, and a `sync()` run after that fresh
pass deletes it.  So `sync()` and `reset()` reuse the stale classification
instead of re-running `stat()` (lines 891-911 contain no `stat()` call). -/
theorem sync_reset_no_fresh_stat_counterexample :
    sync serverKind emptyState orphanTable = .ok orphanTable ∧
    reset serverKind emptyState orphanTable = .ok orphanTable ∧
    status serverKind emptyState orphanTable =
      .ok (sOrphState, ⟨[], [], [], ["x"]⟩) ∧
    sync serverKind sOrphState orphanTable = .ok { records := [], nextId := 2 } :=
  ⟨rfl, rfl, rfl, rfl⟩

/-- C8 (amended): only `status()` begins with a fresh `stat()` pass (its
result is exactly the outcome of `stat` on the just-fetched records);
`sync()` and `reset()` operate on the classification and remote-side
collection left by the most recent `stat()` without re-fetching — in
particular any record the last pass did not see (one whose identifier none
of the stale updates or deletions target) passes through both untouched. -/
theorem status_fresh_stat_sync_reset_stale {F α : Type} (k : KindApi F α) :
    (∀ (s : EngineState α) (t : RemoteTable F) p, status k s t = .ok p →
      stat k s t.records = .ok p.1 ∧
      p.2 = ⟨p.1.current, p.1.outdated, p.1.missing, p.1.orphaned⟩) ∧
    (∀ (s : EngineState α) (t t' : RemoteTable F) r, sync k s t = .ok t' →
      r ∈ t.records →
      (∀ oid ∈ s.outdated, ∀ item, dGet s.items_local oid = some item →
        k.airtableId item ≠ some r.id) →
      (∀ oid ∈ s.orphaned, ∀ item, dGet s.items_airtable oid = some item →
        k.airtableId item ≠ some r.id) →
      r ∈ t'.records) ∧
    (∀ (s : EngineState α) (t t' : RemoteTable F) r, reset k s t = .ok t' →
      r ∈ t.records →
      (∀ p ∈ s.items_airtable, k.airtableId p.2 ≠ some r.id) →
      r ∈ t'.records) := by
  refine ⟨?_, ?_, ?_⟩
  · intro s t p h
    unfold status at h
    obtain ⟨s1, hstat, hpure⟩ := except_bind_ok h
    cases hpure
    exact ⟨hstat, rfl⟩
  · intro s t t' r hsync hr hupd hdel
    unfold sync at hsync
    obtain ⟨t1, hload, h2⟩ := except_bind_ok hsync
    obtain ⟨t2, hupdf, h3⟩ := except_bind_ok h2
    obtain ⟨ids, hids, hpure⟩ := except_bind_ok h3
    cases hpure
    obtain ⟨fs, ht1⟩ := load_ok_shape k s t t1 hload
    have hr1 : r ∈ t1.records := by
      rw [ht1]
      unfold batch_insert
      exact List.mem_append_left _ hr
    have hr2 : r ∈ t2.records := updFold_mem k s s.outdated t1 t2 hupdf r hr1 hupd
    refine mem_batch_delete t2 ids r hr2 ?_
    intro hin
    rcases delFold_sound k s t2 s.orphaned [] ids hids r.id hin with h | ⟨o, ho, item, h1, h2⟩
    · simp at h
    · exact hdel o ho item h1 (by rw [h2])
  · intro s t t' r hreset hr hitems
    unfold reset at hreset
    obtain ⟨ids, hids, hpure⟩ := except_bind_ok hreset
    cases hpure
    refine mem_batch_delete t ids r hr ?_
    intro hin
    rcases resetFold_sound k t (s.items_airtable.map Prod.snd) [] ids hids r.id hin with
      h | ⟨item, hi1, hi2⟩
    · simp at h
    · obtain ⟨p, hp, hps⟩ := List.mem_map.1 hi1
      exact hitems p hp (by rw [hps, hi2])

/-- Witness for the amended C8 theorem at the orphan-record scenario. -/
theorem status_fresh_stat_sync_reset_stale_witness :
    (stat serverKind emptyState orphanTable.records = .ok sOrphState ∧
      ((sOrphState, (⟨[], [], [], ["x"]⟩ : Status)) :
        EngineState ServerAirtable × Status).2 =
        ⟨sOrphState.current, sOrphState.outdated, sOrphState.missing,
          sOrphState.orphaned⟩) ∧
    (⟨1, witOrphFields⟩ : AirtableRecord ServerFields) ∈ orphanTable.records ∧
    (⟨1, witOrphFields⟩ : AirtableRecord ServerFields) ∈ orphanTable.records :=
  ⟨(status_fresh_stat_sync_reset_stale serverKind).1 emptyState orphanTable
      (sOrphState, ⟨[], [], [], ["x"]⟩) (by rfl),
    (status_fresh_stat_sync_reset_stale serverKind).2.1 emptyState orphanTable
      orphanTable ⟨1, witOrphFields⟩ (by rfl) (by decide)
      (by simp [emptyState]) (by simp [emptyState]),
    (status_fresh_stat_sync_reset_stale serverKind).2.2 emptyState orphanTable
      orphanTable ⟨1, witOrphFields⟩ (by rfl) (by decide) (by simp [emptyState])⟩

/-- C6 counterexample: the claim says a reconciliation pass with exactly one
malformed record classifies that record orphaned and completes.  Here the
only malformed record lacks the `ID` field: `stat` reads
`airtable_item['fields']['ID']` before the `try` (line 854), so the whole
pass aborts with `KeyError` and nothing — not even the well-formed local
item — is classified. -/
theorem malformed_record_aborts_pass_counterexample :
    stat serverKind statPartWitState [⟨5, noIdFields⟩, ⟨7, statPartWitFields⟩] =
      .error .keyError :=
  rfl

/-- C6 (amended): a record whose inbound construction raises `KeyError`
(missing named field other than `ID`, dangling reference, or unknown local
identifier) degrades to `orphaned` and the pass completes, classifying
every other record exactly as it would have without that record — the
result differs only by the orphaned entry.  (A record lacking the `ID`
field itself, or carrying an unrecognized enumeration value, aborts the
pass instead.) -/
theorem keyerror_record_degrades_to_orphan {F α : Type} (k : KindApi F α)
    (s : EngineState α) (pre post : List (AirtableRecord F)) (r : AirtableRecord F)
    (i : String) (hdecl : k.declaredId r.fields = some i)
    (hparse : k.parse r = .error .keyError)
    (s' : EngineState α) (h : stat k s (pre ++ post) = .ok s') :
    ∃ oPre oPost, s'.orphaned = oPre ++ oPost ∧
      stat k s (pre ++ r :: post) = .ok { s' with orphaned := oPre ++ i :: oPost } := by
  unfold stat at h ⊢
  rw [List.foldlM_append] at h
  obtain ⟨sB, hfold, hcls⟩ := except_bind_ok h
  obtain ⟨sA, hpre, hpost⟩ := except_bind_ok hfold
  have hstepr : statStep k sA r = .ok { sA with orphaned := sA.orphaned ++ [i] } := by
    unfold statStep
    rw [hdecl, hparse]
  obtain ⟨tail, hOB, hAll⟩ := recLoop_orphan k post sA sB hpost
  have hpost' := hAll (sA.orphaned ++ [i])
  refine ⟨sA.orphaned, tail, ?_, ?_⟩
  · have hfr := classifyFold_frame k (sB.items_local.map Prod.snd) sB s' hcls
    rw [hfr.2.2.2]
    exact hOB
  · rw [List.foldlM_append, hpre, except_ok_bind, foldlM_cons_except, hstepr,
      except_ok_bind, hpost', except_ok_bind]
    have hcls' := classifyFold_orphaned k (sB.items_local.map Prod.snd) sB s' hcls
      (sA.orphaned ++ [i] ++ tail)
    have horph : s'.orphaned = sA.orphaned ++ tail := by
      have := classifyFold_frame k (sB.items_local.map Prod.snd) sB s' hcls
      rw [this.2.2.2, hOB]
    rw [show ({ sB with orphaned := sA.orphaned ++ [i] ++ tail } :
        EngineState α).items_local = sB.items_local from rfl] at hcls'
    rw [hcls']
    simp

/-- Witness for the amended C6 theorem: one well-formed record, one record
lacking its `Name` field. -/
theorem keyerror_record_degrades_to_orphan_witness :
    ∃ oPre oPost, (statPartWitState' : EngineState ServerAirtable).orphaned =
        oPre ++ oPost ∧
      stat serverKind statPartWitState ([⟨7, statPartWitFields⟩] ++
        ⟨5, noNameFields⟩ :: []) =
        .ok { statPartWitState' with orphaned := oPre ++ "x" :: oPost } :=
  keyerror_record_degrades_to_orphan serverKind statPartWitState
    [⟨7, statPartWitFields⟩] [] ⟨5, noNameFields⟩ "x" (by rfl) (by rfl)
    statPartWitState' (by rfl)

/-! Lemmas about fatal record-scan failures. -/

theorem statStep_fatal_of_parse {F α : Type} (k : KindApi F α) (r : AirtableRecord F)
    (e : PyErr) (hparse : k.parse r = .error e) (hne : e ≠ .keyError) :
    ∀ s : EngineState α, ∃ e', statStep k s r = .error e' := by
  intro s
  unfold statStep
  rcases hd : k.declaredId r.fields with _ | item_id
  · exact ⟨.keyError, rfl⟩
  · rw [hparse]
    cases e
    · exact absurd rfl hne
    all_goals exact ⟨_, rfl⟩

theorem recLoop_fatal {F α : Type} (k : KindApi F α) (rs : List (AirtableRecord F)) :
    ∀ r ∈ rs, (∀ s : EngineState α, ∃ e', statStep k s r = .error e') →
    ∀ s : EngineState α, ∃ e', rs.foldlM (statStep k) s = .error e' := by
  induction rs with
  | nil =>
    intro r hr
    simp at hr
  | cons a rest ih =>
    intro r hr hstep s
    rw [foldlM_cons_except]
    rcases List.mem_cons.1 hr with he | hm
    · subst he
      obtain ⟨e', h⟩ := hstep s
      rw [h]
      exact ⟨e', rfl⟩
    · cases hsa : statStep k s a with
      | error e => exact ⟨e, rfl⟩
      | ok s1 =>
        rw [except_ok_bind]
        exact ih r hm hstep s1

theorem stat_fatal_of_parse {F α : Type} (k : KindApi F α)
    (records : List (AirtableRecord F)) (r : AirtableRecord F) (hr : r ∈ records)
    (e : PyErr) (hparse : k.parse r = .error e) (hne : e ≠ .keyError)
    (s : EngineState α) : ∃ e', stat k s records = .error e' := by
  unfold stat
  obtain ⟨e', hf⟩ :=
    recLoop_fatal k records r hr (statStep_fatal_of_parse k r e hparse hne) _
  rw [hf]
  exact ⟨e', rfl⟩

theorem layerServices_fold_fatal (raws : List String) :
    ∀ acc, (∃ raw ∈ raws, LayerServiceAirtable.ofValue raw = none) →
      raws.foldlM layerServicesStep acc = .error .valueError := by
  induction raws with
  | nil =>
    rintro acc ⟨raw', hmem, _⟩
    simp at hmem
  | cons raw rest ih =>
    rintro acc ⟨raw', hmem, hbad⟩
    rw [foldlM_cons_except]
    rcases List.mem_cons.1 hmem with he | hm
    · subst he
      unfold layerServicesStep
      rw [hbad]
      rfl
    · cases hv : LayerServiceAirtable.ofValue raw with
      | none =>
        unfold layerServicesStep
        rw [hv]
        rfl
      | some v =>
        unfold layerServicesStep
        rw [hv]
        rw [show (do
          let v' ← coerceEnum (some v)
          pure (acc ++ [v']) : Except PyErr (List LayerServiceAirtable)) =
            Except.ok (acc ++ [v]) from rfl, except_ok_bind]
        exact ih _ ⟨raw', hm, hbad⟩

/-- Inbound `LayerAirtable` construction fails with `ValueError` as soon as
an enumeration-valued field (`Type`, `Geometry`, or a `Services` element)
holds a display value outside the vocabulary — the earlier required fields
being readable, so that the coercion is reached. -/
theorem layer_parse_fatal (nss : EngineState NamespaceAirtable)
    (reps : EngineState RepositoryAirtable) (stys : EngineState StyleAirtable)
    (rec : AirtableRecord LayerFields) (i n ti : String)
    (hID : rec.fields.ID = some i) (hName : rec.fields.Name = some n)
    (hTitle : rec.fields.Title = some ti)
    (hbad :
      (∃ v, rec.fields.TypeF = some v ∧ LayerTypeAirtable.ofValue v = none) ∨
      ((∃ v ty, rec.fields.TypeF = some v ∧ LayerTypeAirtable.ofValue v = some ty) ∧
        ∃ gv, rec.fields.Geometry = some gv ∧
          LayerGeometryAirtable.ofValue gv = none) ∨
      ((∃ v ty, rec.fields.TypeF = some v ∧ LayerTypeAirtable.ofValue v = some ty) ∧
        (rec.fields.Geometry = none ∨
          ∃ gv g, rec.fields.Geometry = some gv ∧
            LayerGeometryAirtable.ofValue gv = some g) ∧
        ∃ raws, rec.fields.Services = some raws ∧
          ∃ raw ∈ raws, LayerServiceAirtable.ofValue raw = none)) :
    LayerAirtable.parse nss reps stys rec = .error .valueError := by
  unfold LayerAirtable.parse
  rcases hbad with ⟨v, hv, hofv⟩ |
    ⟨⟨v, ty, hv, hofv⟩, gv, hgv, hofg⟩ |
    ⟨⟨v, ty, hv, hofv⟩, hgeom, raws, hraws, hrawbad⟩
  · simp [reqField, coerceEnum, hID, hName, hTitle, hv, hofv,
      except_ok_bind, except_error_bind]
  · simp [reqField, coerceEnum, hID, hName, hTitle, hv, hofv, hgv, hofg,
      except_ok_bind, except_error_bind]
  · rcases hgeom with hgnone | ⟨gv, g, hgv, hofg⟩
    · simp [reqField, coerceEnum, hID, hName, hTitle, hv, hofv, hgnone, hraws,
        layerServices_fold_fatal raws [] hrawbad,
        except_ok_bind, except_error_bind]
    · simp [reqField, coerceEnum, hID, hName, hTitle, hv, hofv, hgv, hofg, hraws,
        layerServices_fold_fatal raws [] hrawbad,
        except_ok_bind, except_error_bind]

/-- C9: a remote Layer record whose enumeration-valued field (`Type`,
`Geometry`, or a `Services` element) holds a value outside the remote
display vocabulary makes inbound parsing fail immediately with a fatal
`ValueError`, and the whole reconciliation pass aborts — the value is never
silently coerced and the record is never classified orphaned (no
classification lists are produced at all). -/
theorem unknown_enum_value_aborts_pass (nss : EngineState NamespaceAirtable)
    (reps : EngineState RepositoryAirtable) (stys : EngineState StyleAirtable)
    (records : List (AirtableRecord LayerFields)) (rec : AirtableRecord LayerFields)
    (hr : rec ∈ records) (i n ti : String)
    (hID : rec.fields.ID = some i) (hName : rec.fields.Name = some n)
    (hTitle : rec.fields.Title = some ti)
    (hbad :
      (∃ v, rec.fields.TypeF = some v ∧ LayerTypeAirtable.ofValue v = none) ∨
      ((∃ v ty, rec.fields.TypeF = some v ∧ LayerTypeAirtable.ofValue v = some ty) ∧
        ∃ gv, rec.fields.Geometry = some gv ∧
          LayerGeometryAirtable.ofValue gv = none) ∨
      ((∃ v ty, rec.fields.TypeF = some v ∧ LayerTypeAirtable.ofValue v = some ty) ∧
        (rec.fields.Geometry = none ∨
          ∃ gv g, rec.fields.Geometry = some gv ∧
            LayerGeometryAirtable.ofValue gv = some g) ∧
        ∃ raws, rec.fields.Services = some raws ∧
          ∃ raw ∈ raws, LayerServiceAirtable.ofValue raw = none)) :
    LayerAirtable.parse nss reps stys rec = .error .valueError ∧
    ∀ s, ∃ e', stat (layerKind nss reps stys) s records = .error e' := by
  have hp := layer_parse_fatal nss reps stys rec i n ti hID hName hTitle hbad
  refine ⟨hp, fun s => ?_⟩
  exact stat_fatal_of_parse (layerKind nss reps stys) records rec hr
    .valueError hp (by simp) s

/-- Witness for the C9 theorem: a single layer record with `Type = "Foo"`. -/
theorem unknown_enum_value_aborts_pass_witness :
    LayerAirtable.parse emptyNsEngine emptyRepEngine emptyStyEngine
      ⟨3, badTypeLayerFields⟩ = .error .valueError ∧
    ∀ s, ∃ e', stat (layerKind emptyNsEngine emptyRepEngine emptyStyEngine) s
      [⟨3, badTypeLayerFields⟩] = .error e' :=
  unknown_enum_value_aborts_pass emptyNsEngine emptyRepEngine emptyStyEngine
    [⟨3, badTypeLayerFields⟩] ⟨3, badTypeLayerFields⟩ (by decide)
    "l1" "n" "t" (by rfl) (by rfl) (by rfl)
    (Or.inl ⟨"Foo", by rfl, by rfl⟩)

theorem batch_insert_nil {F : Type} (t : RemoteTable F) : batch_insert t [] = t := by
  cases t
  simp [batch_insert]

/-- With nothing missing or outdated, `sync` reaches the orphan loop, and an
orphaned identifier absent from the remote-side collection raises `KeyError`
with the table untouched. -/
theorem sync_crashes_on_unregistered_orphan {F α : Type} (k : KindApi F α)
    (s1 : EngineState α) (t : RemoteTable F) (i : String)
    (hmiss : s1.missing = []) (hout : s1.outdated = []) (horph : s1.orphaned = [i])
    (hget : dGet s1.items_airtable i = none) :
    sync k s1 t = .error (.keyError, t) := by
  unfold sync load
  rw [hmiss, hout, horph]
  rw [foldlM_nil_except, except_ok_bind, batch_insert_nil, pure_bind]
  rw [foldlM_nil_except, except_ok_bind]
  rw [foldlM_cons_except]
  rw [show delStep k s1 t [] i = throw (PyErr.keyError, t) from by
    unfold delStep
    rw [hget]]
  rfl

/-- C10: a remote namespace record orphaned because its inbound construction
itself failed (its `Server` relationship references a remote identifier
absent from the sibling bridge) is never registered in the remote-side
collection, so the subsequent `sync()` raises an uncaught `KeyError` while
building the deletion list (line 902), and the record is not deleted from
the remote table — the error carries the table still holding it. -/
theorem construction_failure_orphan_breaks_sync
    (servers : EngineState ServerAirtable) (rec : AirtableRecord NamespaceFields)
    (i n ti : String) (x : Option Nat) (xs : List (Option Nat))
    (t : RemoteTable NamespaceFields)
    (hID : rec.fields.ID = some i) (hName : rec.fields.Name = some n)
    (hTitle : rec.fields.Title = some ti)
    (hServer : rec.fields.Server = some (x :: xs))
    (hLookup : getByAirtableId servers x = .error .keyError)
    (hrecords : t.records = [rec])
    (s : EngineState NamespaceAirtable) (hlocal : s.items_local = []) :
    NamespaceAirtable.parse servers rec = .error .keyError ∧
    ∃ s1, stat (namespaceKind servers) s t.records = .ok s1 ∧
      s1.orphaned = [i] ∧ dGet s1.items_airtable i = none ∧
      sync (namespaceKind servers) s1 t = .error (.keyError, t) ∧
      rec ∈ t.records := by
  have hparse : NamespaceAirtable.parse servers rec = .error .keyError := by
    unfold NamespaceAirtable.parse
    simp [reqField, hID, hName, hTitle, hServer, hLookup, throw, throwThe,
      MonadExceptOf.throw, Functor.map, Except.map,
      except_ok_bind, except_error_bind]
  have hdecl : (namespaceKind servers).declaredId rec.fields = some i := hID
  refine ⟨hparse, ?_⟩
  have hstep : statStep (namespaceKind servers)
      { s with items_airtable := [], missing := [], current := [],
               outdated := [], orphaned := [] } rec =
      .ok { s with items_airtable := [], missing := [], current := [],
                   outdated := [], orphaned := [i] } := by
    unfold statStep
    rw [hdecl]
    rw [show (namespaceKind servers).parse rec = .error .keyError from hparse]
    simp
  refine ⟨{ s with items_airtable := [], missing := [], current := [],
                   outdated := [], orphaned := [i] }, ?_, rfl, ?_, ?_, ?_⟩
  · unfold stat
    rw [hrecords, foldlM_cons_except, hstep, except_ok_bind, foldlM_nil_except,
      except_ok_bind]
    rw [show s.items_local = [] from hlocal]
    rfl
  · rfl
  · exact sync_crashes_on_unregistered_orphan (namespaceKind servers) _ t i
      rfl rfl rfl rfl
  · rw [hrecords]
    simp

/-- Witness for the C10 theorem: empty bridge, concrete dangling record. -/
theorem construction_failure_orphan_breaks_sync_witness :
    NamespaceAirtable.parse emptyState ⟨4, danglingNsFields⟩ = .error .keyError ∧
    ∃ s1, stat (namespaceKind emptyState) emptyNsEngine danglingNsTable.records =
        .ok s1 ∧
      s1.orphaned = ["n1"] ∧ dGet s1.items_airtable "n1" = none ∧
      sync (namespaceKind emptyState) s1 danglingNsTable =
        .error (.keyError, danglingNsTable) ∧
      (⟨4, danglingNsFields⟩ : AirtableRecord NamespaceFields) ∈
        danglingNsTable.records :=
  construction_failure_orphan_breaks_sync emptyState ⟨4, danglingNsFields⟩
    "n1" "nn" "tt" (some 99) [] danglingNsTable (by rfl) (by rfl) (by rfl)
    (by rfl) (by rfl) (by rfl) emptyNsEngine (by rfl)

/-- Member values of `RepositoryTypeAirtable` are pairwise distinct, so the
display-value comparison in `_dict` coincides with member equality. -/
theorem RepositoryTypeAirtable.value_inj (t u : RepositoryTypeAirtable) :
    t.value = u.value ↔ t = u := by
  cases t <;> cases u <;> simp [RepositoryTypeAirtable.value]

/-- C4 counterexample: the claim says adapter equality holds iff every
scalar field and every relationship's remote-identifier list are equal.
`witNs1` and `witNs2` have identical scalars but reference servers with
different remote identifiers (`some 1` vs `some 2`), yet compare equal —
`NamespaceAirtable._dict` (line 1104) stores the related `ServerAirtable`
object, compared by the server's own `__eq__`, which ignores the server's
`airtable_id`. -/
theorem namespace_eq_ignores_server_remote_id_counterexample :
    NamespaceAirtable.beqE witNs1 witNs2 = .ok true ∧
    witNs1.server.map (fun sv => sv.airtable_id) ≠
      witNs2.server.map (fun sv => sv.airtable_id) :=
  ⟨rfl, by decide⟩

/-- C4 (amended): for the Repository kind (and likewise Style, Layer and
LayerGroup, whose `_dict`s store remote-identifier lists), structural
equality holds iff every scalar field and the relationship's
remote-identifier list are equal; for the Namespace kind, the `Server`
relationship is instead compared by the server adapters' own structural
equality (their scalar content, ignoring their remote identifiers). -/
theorem adapter_equality_characterization :
    (∀ (a b : RepositoryAirtable) (x y : NamespaceAirtable),
      a.workspace = some x → b.workspace = some y →
      (RepositoryAirtable.beqE a b = .ok true ↔
        (a.id = b.id ∧ a.name = b.name ∧ a.title = b.title ∧ a.type = b.type ∧
         a.host = b.host ∧ a.database = b.database ∧ a.schema = b.schema ∧
         ([x.airtable_id] : List (Option Nat)) = [y.airtable_id]))) ∧
    (∀ (a b : NamespaceAirtable) (x y : ServerAirtable),
      a.server = some x → b.server = some y →
      (NamespaceAirtable.beqE a b = .ok true ↔
        (a.id = b.id ∧ a.name = b.name ∧ a.title = b.title ∧
         a.isolated = b.isolated ∧ x.dict = y.dict))) := by
  constructor
  · intro a b x y hx hy
    unfold RepositoryAirtable.beqE
    rw [hx, hy]
    simp [RepositoryTypeAirtable.value_inj, and_assoc]
  · intro a b x y hx hy
    unfold NamespaceAirtable.beqE
    rw [hx, hy]
    constructor
    · intro h
      split_ifs at h with h1 h2 h3 h4
      · simp at h
      · simp at h
      · simp at h
      · simp at h
      · push_neg at h1 h2 h3 h4
        simp at h
        exact ⟨h1, h2, h3, h4, h⟩
    · rintro ⟨e1, e2, e3, e4, e5⟩
      simp [e1, e2, e3, e4, e5]

/-- Witness for the amended C4 theorem, at a repository compared with
itself and the two namespaces of the counterexample. -/
theorem adapter_equality_characterization_witness :
    (RepositoryAirtable.beqE witRepo1 witRepo1 = .ok true ↔
      (witRepo1.id = witRepo1.id ∧ witRepo1.name = witRepo1.name ∧
       witRepo1.title = witRepo1.title ∧ witRepo1.type = witRepo1.type ∧
       witRepo1.host = witRepo1.host ∧ witRepo1.database = witRepo1.database ∧
       witRepo1.schema = witRepo1.schema ∧
       ([witNs1.airtable_id] : List (Option Nat)) = [witNs1.airtable_id])) ∧
    (NamespaceAirtable.beqE witNs1 witNs2 = .ok true ↔
      (witNs1.id = witNs2.id ∧ witNs1.name = witNs2.name ∧
       witNs1.title = witNs2.title ∧ witNs1.isolated = witNs2.isolated ∧
       witSv1.dict = witSv2.dict)) :=
  ⟨adapter_equality_characterization.1 witRepo1 witRepo1 witNs1 witNs1
      (by rfl) (by rfl),
    adapter_equality_characterization.2 witNs1 witNs2 witSv1 witSv2
      (by rfl) (by rfl)⟩

/-! Round-trip lemmas for the display-value coercions. -/

theorem LayerTypeAirtable.ofValue_value_lt (t : LayerTypeAirtable) :
    LayerTypeAirtable.ofValue t.value = some t := by
  cases t <;> rfl

theorem LayerGeometryAirtable.ofValue_value_lg (g : LayerGeometryAirtable) :
    LayerGeometryAirtable.ofValue (some g.value) = some g := by
  cases g <;> rfl

theorem LayerServiceAirtable.ofValue_value_ls (v : LayerServiceAirtable) :
    LayerServiceAirtable.ofValue v.value = some v := by
  cases v <;> rfl

theorem layerServices_fold_roundtrip (l : List LayerServiceAirtable) :
    ∀ acc, (l.map LayerServiceAirtable.value).foldlM layerServicesStep acc =
      .ok (acc ++ l) := by
  induction l with
  | nil =>
    intro acc
    rw [List.map_nil, foldlM_nil_except]
    simp
  | cons v rest ih =>
    intro acc
    rw [List.map_cons, foldlM_cons_except]
    rw [show layerServicesStep acc v.value = Except.ok (acc ++ [v]) from by
      unfold layerServicesStep
      rw [LayerServiceAirtable.ofValue_value_ls]
      rfl]
    rw [except_ok_bind, ih]
    simp

theorem layerStyles_fold_roundtrip (stys : EngineState StyleAirtable)
    (l : List StyleAirtable)
    (h : ∀ sa ∈ l, getByAirtableId stys sa.airtable_id = .ok sa) :
    ∀ acc, (l.map (fun sa => sa.airtable_id)).foldlM (layerStylesStep stys) acc =
      .ok (acc ++ l) := by
  induction l with
  | nil =>
    intro acc
    rw [List.map_nil, foldlM_nil_except]
    simp
  | cons sa rest ih =>
    intro acc
    rw [List.map_cons, foldlM_cons_except]
    rw [show layerStylesStep stys acc sa.airtable_id = Except.ok (acc ++ [sa]) from by
      unfold layerStylesStep
      rw [h sa (by simp)]
      rfl]
    rw [except_ok_bind, ih (fun x hx => h x (by simp [hx]))]
    simp

/-- C5 counterexample: the claim says outbound construction, field
production and inbound re-parsing yield a structurally equal adapter for
every local entity.  For the geometry-less layer `c5Layer` the outbound
fields contain `Geometry: None` (`airtable_fields` always emits the key,
line 1356), and parsing that mapping back raises `ValueError` at
`LayerGeometryAirtable(None)` (line 1312) — no adapter is produced at
all. -/
theorem layer_roundtrip_counterexample :
    LayerAirtable.ofLayer c5Layer c5NsEngine c5RepEngine emptyStyEngine =
      .ok c5Adapter ∧
    c5Adapter.airtable_fields = .ok c5Fields ∧
    LayerAirtable.parse c5NsEngine c5RepEngine emptyStyEngine ⟨9, c5Fields⟩ =
      .error .valueError :=
  ⟨rfl, rfl, rfl⟩

/-- C5 (amended): the round trip holds for a Layer whose geometry is set and
whose referenced sibling adapters are correlated (each `airtable_id`
resolves back to the same adapter through its bridge): parsing the produced
field mapping yields the same adapter with the record's `airtable_id`, and
the two compare structurally equal.  For the Server kind it holds
unconditionally. -/
theorem layer_server_roundtrip (l : Layer) (nss : EngineState NamespaceAirtable)
    (reps : EngineState RepositoryAirtable) (stys : EngineState StyleAirtable)
    (a : LayerAirtable)
    (hof : LayerAirtable.ofLayer l nss reps stys = .ok a)
    (g : LayerGeometryAirtable) (hg : a.geometry = some g)
    (w : NamespaceAirtable) (hw : a.workspace = some w)
    (hwb : getByAirtableId nss w.airtable_id = .ok w)
    (st : RepositoryAirtable) (hst : a.store = some st)
    (hstb : getByAirtableId reps st.airtable_id = .ok st)
    (hsty : ∀ sa ∈ a.styles, getByAirtableId stys sa.airtable_id = .ok sa) :
    (∃ f, a.airtable_fields = .ok f ∧
      ∀ rid, LayerAirtable.parse nss reps stys ⟨rid, f⟩ =
          .ok { a with airtable_id := some rid } ∧
        LayerAirtable.beqE a { a with airtable_id := some rid } = .ok true) ∧
    (∀ (sv : Server) (rid : Nat),
      ServerAirtable.parse ⟨rid, (ServerAirtable.ofServer sv).airtable_fields⟩ =
        .ok { ServerAirtable.ofServer sv with airtable_id := some rid } ∧
      ServerAirtable.beqE (ServerAirtable.ofServer sv)
        { ServerAirtable.ofServer sv with airtable_id := some rid } = .ok true) := by
  constructor
  · have hfields : a.airtable_fields = .ok
        { ID := some a.id, Name := some a.name, Title := some a.title,
          TypeF := some a.type.value,
          Geometry := some (a.geometry.map LayerGeometryAirtable.value),
          Services := some (a.services.map LayerServiceAirtable.value),
          TableView := some a.table_view,
          Workspace := some [w.airtable_id],
          Store := some [st.airtable_id],
          Styles := some (a.styles.map (fun sa => sa.airtable_id)) } := by
      unfold LayerAirtable.airtable_fields
      rw [hw, hst]
    refine ⟨_, hfields, ?_⟩
    intro rid
    constructor
    · unfold LayerAirtable.parse
      simp only [reqField, coerceEnum, except_ok_bind, except_error_bind,
        Functor.map, Except.map, LayerTypeAirtable.ofValue_value_lt, hg,
        Option.map_some, LayerGeometryAirtable.ofValue_value_lg,
        layerServices_fold_roundtrip a.services [],
        layerStyles_fold_roundtrip stys a.styles hsty [], hwb, hstb]
      simp [LayerGeometryAirtable.ofValue_value_lg, hw, hst]
    · unfold LayerAirtable.beqE
      rw [hw, hst]
      simp [hw, hst]
  · intro sv rid
    rcases sv with ⟨i, lb, hn, ty, ver⟩
    cases ty
    exact ⟨rfl, by simp [ServerAirtable.beqE, ServerAirtable.dict]⟩

/-- Witness for the amended C5 theorem: the vector layer `c5LayerG` with its
correlated bridges, and a concrete server. -/
theorem layer_server_roundtrip_witness :
    (∃ f, c5AdapterG.airtable_fields = .ok f ∧
      ∀ rid, LayerAirtable.parse c5NsEngine c5RepEngine emptyStyEngine ⟨rid, f⟩ =
          .ok { c5AdapterG with airtable_id := some rid } ∧
        LayerAirtable.beqE c5AdapterG { c5AdapterG with airtable_id := some rid } =
          .ok true) ∧
    (∀ (sv : Server) (rid : Nat),
      ServerAirtable.parse ⟨rid, (ServerAirtable.ofServer sv).airtable_fields⟩ =
        .ok { ServerAirtable.ofServer sv with airtable_id := some rid } ∧
      ServerAirtable.beqE (ServerAirtable.ofServer sv)
        { ServerAirtable.ofServer sv with airtable_id := some rid } = .ok true) :=
  layer_server_roundtrip c5LayerG c5NsEngine c5RepEngine emptyStyEngine
    c5AdapterG (by rfl) .point (by rfl) witNs1 (by rfl) (by rfl)
    witRepo1 (by rfl) (by rfl) (by intro sa hsa; simp [c5AdapterG] at hsa)

/-! Lemmas for the orphan-deletion theorem. -/

theorem recLoop_keys {F α : Type} (k : KindApi F α) (rs : List (AirtableRecord F)) :
    ∀ (s s' : EngineState α), rs.foldlM (statStep k) s = .ok s' →
      dKeys s'.items_local = dKeys s.items_local := by
  induction rs with
  | nil =>
    intro s s' h
    rw [foldlM_nil_except] at h
    cases h
    rfl
  | cons r rest ih =>
    intro s s' h
    rw [foldlM_cons_except] at h
    obtain ⟨s₁, hstep, hrest⟩ := except_bind_ok h
    rw [ih s₁ s' hrest, (statStep_ok_shape k s r s₁ hstep).2.2.2]

theorem statStep_itemsA {F α : Type} (k : KindApi F α) (s : EngineState α)
    (r : AirtableRecord F) (s₁ : EngineState α) (h : statStep k s r = .ok s₁) :
    s₁.items_airtable = s.items_airtable ∨
    ∃ a', k.parse r = .ok a' ∧
      s₁.items_airtable = dSet s.items_airtable (k.localId a') a' := by
  unfold statStep at h
  split at h
  · exact absurd h (by simp)
  · split at h
    · cases h
      exact Or.inl rfl
    · exact absurd h (by simp)
    · rename_i item hparse
      split at h <;>
      · cases h
        exact Or.inr ⟨item, hparse, rfl⟩

theorem recLoop_registered {F α : Type} (k : KindApi F α)
    (rs : List (AirtableRecord F)) :
    ∀ (s s' : EngineState α), rs.foldlM (statStep k) s = .ok s' →
      ∀ key v, dGet s.items_airtable key = some v →
        (∀ r' ∈ rs, ∀ a', k.parse r' = .ok a' → k.localId a' ≠ key) →
        dGet s'.items_airtable key = some v := by
  induction rs with
  | nil =>
    intro s s' h key v hv _
    rw [foldlM_nil_except] at h
    cases h
    exact hv
  | cons r rest ih =>
    intro s s' h key v hv hne
    rw [foldlM_cons_except] at h
    obtain ⟨s₁, hstep, hrest⟩ := except_bind_ok h
    have hv1 : dGet s₁.items_airtable key = some v := by
      rcases statStep_itemsA k s r s₁ hstep with heq | ⟨a', hpa, heq⟩
      · rw [heq]
        exact hv
      · rw [heq, dGet_dSet_ne _ _ _ _ (hne r (by simp) a' hpa)]
        exact hv
    exact ih s₁ s' hrest key v hv1 (fun r' hr' => hne r' (by simp [hr']))

theorem delFold_complete {F α : Type} (k : KindApi F α) (s : EngineState α)
    (t2 : RemoteTable F) (O : List String) :
    ∀ (acc ids : List Nat), O.foldlM (delStep k s t2) acc = .ok ids →
      (∀ x ∈ acc, x ∈ ids) ∧
      ∀ o ∈ O, ∀ item rid, dGet s.items_airtable o = some item →
        k.airtableId item = some rid → rid ∈ ids := by
  induction O with
  | nil =>
    intro acc ids h
    rw [foldlM_nil_except] at h
    cases h
    exact ⟨fun x hx => hx, fun o ho => by simp at ho⟩
  | cons oid rest ih =>
    intro acc ids h
    rw [foldlM_cons_except] at h
    obtain ⟨acc1, hstep, hrest⟩ := except_bind_ok h
    unfold delStep at hstep
    split at hstep
    · exact absurd hstep (by simp [throw, throwThe, MonadExceptOf.throw])
    · rename_i item hget
      split at hstep
      · exact absurd hstep (by simp [throw, throwThe, MonadExceptOf.throw])
      · rename_i rid' haid
        have hacc1 : acc1 = acc ++ [rid'] := by
          cases hstep
          rfl
        subst hacc1
        obtain ⟨hsub, hcompl⟩ := ih _ ids hrest
        refine ⟨fun x hx => hsub x (by simp [hx]), ?_⟩
        intro o ho item' rid hget' haid'
        rcases List.mem_cons.1 ho with he | hm
        · subst he
          rw [hget] at hget'
          cases hget'
          rw [haid] at haid'
          cases haid'
          exact hsub _ (by simp)
        · exact hcompl o hm item' rid hget' haid'

theorem batch_delete_mem_id {F : Type} (t : RemoteTable F) (ids : List Nat)
    (rr : AirtableRecord F) (h : rr ∈ (batch_delete t ids).records) :
    rr.id ∉ ids := by
  unfold batch_delete at h
  have := (List.mem_filter.1 h).2
  simpa [List.contains] using this

/-- C3 counterexample: the claim says every remote record whose declared
local identifier has no local entity is classified orphaned and, after
`sync()`, no longer appears in `get_all()`.  The record 5 declares `x`
(absent locally) but fails inbound construction (`Name` missing), so it is
orphaned without being registered in `items_airtable`; `sync()` then raises
`KeyError` (line 902) and the record is still in the table. -/
theorem orphan_not_deleted_counterexample :
    stat serverKind emptyState tBadTable.records = .ok sBadState ∧
    sBadState.orphaned = ["x"] ∧
    sync serverKind sBadState tBadTable = .error (.keyError, tBadTable) ∧
    (⟨5, noNameFields⟩ : AirtableRecord ServerFields) ∈ tBadTable.records :=
  ⟨rfl, rfl, rfl, by decide⟩

/-- C3 (amended): a remote record whose declared local identifier has no
matching local entity is classified orphaned under that declared identifier
and excluded from `missing`, `current` and `outdated`; and provided the
record itself parses, no other fetched record resolves to the same local
identifier, and `sync()` completes, the record no longer appears in the
table (every remaining record has a different remote identifier). -/
theorem orphan_classified_and_deleted {F α : Type} (k : KindApi F α)
    (hLoc : ∀ a x, k.localId (k.setAirtableId a x) = k.localId a)
    (s : EngineState α) (t : RemoteTable F)
    (pre post : List (AirtableRecord F)) (r : AirtableRecord F) (o : String)
    (pa : α)
    (hrecords : t.records = pre ++ r :: post)
    (hdecl : k.declaredId r.fields = some o)
    (hparse : k.parse r = .ok pa)
    (hplid : k.localId pa = o)
    (hpaid : k.airtableId pa = some r.id)
    (hcoh : ∀ p ∈ s.items_local, p.1 = k.localId p.2)
    (hnotloc : o ∉ dKeys s.items_local)
    (huniq : ∀ r' ∈ post, ∀ a', k.parse r' = .ok a' → k.localId a' ≠ o)
    (s' : EngineState α) (hstat : stat k s t.records = .ok s')
    (t' : RemoteTable F) (hsync : sync k s' t = .ok t') :
    o ∈ s'.orphaned ∧ o ∉ s'.missing ∧ o ∉ s'.current ∧ o ∉ s'.outdated ∧
    ∀ rr ∈ t'.records, rr.id ≠ r.id := by
  rw [hrecords] at hstat
  unfold stat at hstat
  rw [List.foldlM_append] at hstat
  obtain ⟨sB, hrec, hcls⟩ := except_bind_ok hstat
  obtain ⟨sA, hpre, hmid⟩ := except_bind_ok hrec
  rw [foldlM_cons_except] at hmid
  obtain ⟨sB0, hstep, hpost⟩ := except_bind_ok hmid
  have hkeysA := recLoop_keys k pre _ sA hpre
  have hgetA : dGet sA.items_local o = none := by
    rw [dGet_eq_none_iff, hkeysA]
    exact hnotloc
  have hstepval : statStep k sA r = .ok { sA with
      items_airtable := dSet sA.items_airtable o pa,
      orphaned := sA.orphaned ++ [o] } := by
    simp only [statStep, hdecl, hparse, hplid, hgetA]
  rw [hstepval] at hstep
  have hB0 : sB0 = { sA with
      items_airtable := dSet sA.items_airtable o pa,
      orphaned := sA.orphaned ++ [o] } := by
    cases hstep
    rfl
  subst hB0
  obtain ⟨tail, hOB, _⟩ := recLoop_orphan k post _ sB hpost
  have hoB : o ∈ sB.orphaned := by
    rw [hOB]
    simp
  have hregB0 : dGet (dSet sA.items_airtable o pa) o = some pa := dGet_dSet_self _ _ _
  have hregB : dGet sB.items_airtable o = some pa := by
    refine recLoop_registered k post _ sB hpost o pa ?_ huniq
    exact hregB0
  obtain ⟨hloc', hita', _, horph'⟩ :=
    classifyFold_frame k (sB.items_local.map Prod.snd) sB s' hcls
  have hoS : o ∈ s'.orphaned := by
    rw [horph']
    exact hoB
  have hregS : dGet s'.items_airtable o = some pa := by
    rw [hita']
    exact hregB
  have hmcoB : sB.missing = [] ∧ sB.current = [] ∧ sB.outdated = [] := by
    obtain ⟨m1, c1, o1⟩ := recLoop_mco k pre _ sA hpre
    obtain ⟨m3, c3, o3⟩ := recLoop_mco k post _ sB hpost
    exact ⟨m3.trans m1, c3.trans c1, o3.trans o1⟩
  have hids : sB.items_local.map (fun p => k.localId p.2) =
      s.items_local.map (fun p => k.localId p.2) := by
    have h1 := recLoop_localIds k hLoc pre _ sA hpre
    have h3 := recLoop_localIds k hLoc post _ sB hpost
    rw [h3, h1]
  have hnotvals : o ∉ s.items_local.map (fun p => k.localId p.2) := by
    intro hmem
    obtain ⟨p, hp, hpe⟩ := List.mem_map.1 hmem
    exact hnotloc (by rw [← hpe, ← hcoh p hp]; exact List.mem_map_of_mem Prod.fst hp)
  obtain ⟨_, hcount⟩ :=
    classifyFold_count k (sB.items_local.map Prod.snd) sB s' hcls
  have hzero : (s'.missing ++ s'.current ++ s'.outdated).count o = 0 := by
    have hx := hcount o
    rw [List.map_map] at hx
    rw [hx, hmcoB.1, hmcoB.2.1, hmcoB.2.2]
    have : ((sB.items_local.map (k.localId ∘ Prod.snd)).count o) = 0 := by
      rw [List.count_eq_zero]
      intro hmem
      apply hnotvals
      rw [← hids]
      simpa using hmem
    simp [this]
  have hnotmco : o ∉ s'.missing ∧ o ∉ s'.current ∧ o ∉ s'.outdated := by
    rw [List.count_append, List.count_append] at hzero
    refine ⟨?_, ?_, ?_⟩ <;>
    · intro hmem
      have := List.count_pos_iff.2 hmem
      omega
  unfold sync at hsync
  obtain ⟨t1, _, h2⟩ := except_bind_ok hsync
  obtain ⟨t2, _, h3⟩ := except_bind_ok h2
  obtain ⟨ids, hdel, hpure⟩ := except_bind_ok h3
  cases hpure
  have hin : r.id ∈ ids :=
    (delFold_complete k s' t2 s'.orphaned [] ids hdel).2 o hoS pa r.id hregS hpaid
  refine ⟨hoS, hnotmco.1, hnotmco.2.1, hnotmco.2.2, ?_⟩
  intro rr hrr he
  exact batch_delete_mem_id t2 ids rr hrr (he ▸ hin)

/-- Witness for the amended C3 theorem: one local server, one well-formed
orphan record; after `sync()` only the freshly inserted record remains. -/
theorem orphan_classified_and_deleted_witness :
    "x" ∈ c3StatState.orphaned ∧ "x" ∉ c3StatState.missing ∧
    "x" ∉ c3StatState.current ∧ "x" ∉ c3StatState.outdated ∧
    ∀ rr ∈ c3SyncedTable.records,
      rr.id ≠ (⟨1, witOrphFields⟩ : AirtableRecord ServerFields).id :=
  orphan_classified_and_deleted serverKind (fun a x => rfl) statPartWitState
    orphanTable [] [] ⟨1, witOrphFields⟩ "x" witOrphServer1 (by rfl) (by rfl)
    (by rfl) (by rfl) (by rfl) (by decide) (by decide)
    (by intro r' hr'; simp at hr') c3StatState (by rfl) c3SyncedTable (by rfl)

theorem batch_delete_nil {F : Type} (t : RemoteTable F) :
    batch_delete t [] = t := by
  cases t
  simp [batch_delete]

/-- C2 counterexample: the claim says `sync()` yields a clean `status()`
({current: all, outdated/missing/orphaned: []}).  With no local entities and
two well-formed records both declaring `x`, the second registration
overwrites the first in `items_airtable`, so the deletion loop collects
record 2's identifier twice and record 1 survives `sync()`; the following
`status()` reports `orphaned == ['x']`, not `[]`. -/
theorem sync_not_idempotent_counterexample :
    stat serverKind emptyState c2Table.records = .ok c2State ∧
    sync serverKind c2State c2Table = .ok c2Synced ∧
    status serverKind c2State c2Synced =
      .ok (sOrphState, ⟨[], [], [], ["x"]⟩) :=
  ⟨rfl, rfl, rfl⟩

/-- C2 (amended): `sync()` need not produce a clean `status()` (see the
counterexample: two records declaring the same absent identifier).  The
idempotence core that does hold: once a `status()` pass reports missing,
outdated and orphaned all empty, `sync()` is a fixed point — it succeeds and
returns the remote table unchanged, so every subsequent `status()` observes
exactly the same records and the reported status is unchanged. -/
theorem sync_fixed_point_of_clean_status {F α : Type} (k : KindApi F α)
    (s0 s1 : EngineState α) (t : RemoteTable F) (st : Status)
    (hstatus : status k s0 t = .ok (s1, st))
    (hm : st.missing = []) (hod : st.outdated = []) (horph : st.orphaned = []) :
    sync k s1 t = .ok t := by
  unfold status at hstatus
  obtain ⟨s1', _, hpure⟩ := except_bind_ok hstatus
  have hpure' : (Except.ok
      (s1', (⟨s1'.current, s1'.outdated, s1'.missing, s1'.orphaned⟩ : Status)) :
      Except PyErr (EngineState α × Status)) = .ok (s1, st) := hpure
  have hpair := Except.ok.inj hpure'
  have hs : s1' = s1 := congrArg Prod.fst hpair
  have hst : st = ⟨s1'.current, s1'.outdated, s1'.missing, s1'.orphaned⟩ :=
    (congrArg Prod.snd hpair).symm
  subst hs
  have hm' : s1'.missing = [] := by rw [hst] at hm; exact hm
  have hod' : s1'.outdated = [] := by rw [hst] at hod; exact hod
  have horph' : s1'.orphaned = [] := by rw [hst] at horph; exact horph
  unfold sync load
  rw [hm', hod', horph']
  rw [foldlM_nil_except, except_ok_bind, batch_insert_nil, pure_bind]
  rw [foldlM_nil_except, except_ok_bind]
  rw [foldlM_nil_except, except_ok_bind, batch_delete_nil]
  rfl

/-- Witness: on an empty local collection and an empty table, `status()`
reports everything clean and a further `sync()` returns the table
unchanged. -/
theorem sync_fixed_point_of_clean_status_witness :
    sync serverKind emptyState c2EmptyTable = .ok c2EmptyTable :=
  sync_fixed_point_of_clean_status serverKind emptyState emptyState
    c2EmptyTable ⟨[], [], [], []⟩ (by rfl) rfl rfl rfl

end MapLayerIndex
